import Mathlib

/-!
Verification of the geometric core of the CABS utilities module
(`CABS/utils.py`): the local-frame / rotation-matrix construction of
`SCModeler`, the side-chain rebuilding loop, the Kabsch optimal-rotation
solver, the RMSD function and the iteratively reweighted alignment
`dynamic_kabsch`.

The Python code computes with IEEE doubles; the embedding models the
arithmetic over the exact reals.  `np.linalg.svd` is external to the
repository, so `kabsch` is parametrised by an abstract SVD oracle with the
same interface (a function returning the triple `v, s, w`).  The
`FloatingPointError` raised by a zero-norm division inside
`_calc_nodes_line` (the only place the source turns on raising) is modelled
by an `Option` result, and the `try/except` fallback by `Option.getD`.
Python `IndexError`/`KeyError` failures in `rebuild_one` are modelled by
`Option` as well.
-/

noncomputable section

namespace CABS

/-- A 3-component coordinate vector, mirroring a numpy length-3 array. -/
abbrev V3 := Fin 3 → ℝ

/-- The 3 x 3 real matrices produced by the rotation builder and by `kabsch`. -/
abbrev Mat3 := Matrix (Fin 3) (Fin 3) ℝ

/-- Euclidean dot product of two 3-vectors (`np.dot` on length-3 arrays). -/
def dot3 (a b : V3) : ℝ := a 0 * b 0 + a 1 * b 1 + a 2 * b 2

/-- Cross product of two 3-vectors (`np.cross`). -/
def cross3 (a b : V3) : V3 :=
  ![a 1 * b 2 - a 2 * b 1, a 2 * b 0 - a 0 * b 2, a 0 * b 1 - a 1 * b 0]

/-- Euclidean norm of a 3-vector (`np.linalg.norm`). -/
def norm3 (v : V3) : ℝ := Real.sqrt (dot3 v v)

/-- Sign function with `sgn 0 = 0`, mirroring `np.sign` on doubles. -/
def sgn (x : ℝ) : ℝ := if 0 < x then 1 else if x < 0 then -1 else 0

/-- The world x-axis versor `np.array((1, 0, 0))`. -/
def xhat : V3 := ![1, 0, 0]

/-- The world z-axis versor `np.array((0, 0, 1))`. -/
def zhat : V3 := ![0, 0, 1]

/-- The vector `rdif = c3 - c1` of `SCModeler._mk_local_system`. -/
def rdifOf (c1 c2 c3 : V3) : V3 := c3 - c1

/-- The span `rdnorm = np.linalg.norm(rdif)` of `SCModeler._mk_local_system`. -/
def rdnormOf (c1 c2 c3 : V3) : ℝ := norm3 (rdifOf c1 c2 c3)

/-- The bisector `rsum = (c3 - c2) + (c1 - c2)` of `SCModeler._mk_local_system`. -/
def rsumOf (c1 c2 c3 : V3) : V3 := (c3 - c2) + (c1 - c2)

/-- The local z-axis `z = -1 * rsum / np.linalg.norm(rsum)`. -/
def zOf (c1 c2 c3 : V3) : V3 := fun j => (-1 * rsumOf c1 c2 c3 j) / norm3 (rsumOf c1 c2 c3)

/-- The local x-axis `x = rdif / rdnorm`. -/
def xOf (c1 c2 c3 : V3) : V3 := fun j => rdifOf c1 c2 c3 j / rdnormOf c1 c2 c3

/-- The local y-axis `y = np.cross(z, x)`. -/
def yOf (c1 c2 c3 : V3) : V3 := cross3 (zOf c1 c2 c3) (xOf c1 c2 c3)

/-- `SCModeler._mk_local_system`: returns the three local axes and the span. -/
def mkLocalSystem (c1 c2 c3 : V3) : V3 × V3 × V3 × ℝ :=
  (xOf c1 c2 c3, yOf c1 c2 c3, zOf c1 c2 c3, rdnormOf c1 c2 c3)

/-- `SCModeler._calc_nodes_line` under `np.seterr(all='raise')`: the division
`w / np.linalg.norm(w)` raises `FloatingPointError` exactly when the norm is
zero, modelled as `none`. -/
def calcNodesLine (oldv newv : V3) : Option V3 :=
  let w := cross3 oldv newv
  if norm3 w = 0 then none else some (fun j => w j / norm3 w)

/-- `SCModeler._calc_trig_fnc`: the cosine is the dot product, the sine is the
norm of the cross product signed by the direction of `axis`. -/
def calcTrigFnc (ve1 ve2 axis : V3) : ℝ × ℝ :=
  (dot3 ve1 ve2, norm3 (cross3 ve1 ve2) * sgn (dot3 (cross3 ve1 ve2) axis))

/-- The line of nodes used by `_calc_rot_mtx`: the `try/except
FloatingPointError` around `_calc_nodes_line((0,0,1), z)` falls back to the
local x-axis when the computation signals. -/
def nodesOf (c1 c2 c3 : V3) : V3 :=
  (calcNodesLine zhat (zOf c1 c2 c3)).getD (xOf c1 c2 c3)

/-- The phi-angle pair of `_calc_rot_mtx` (rotation around world z). -/
def phiOf (c1 c2 c3 : V3) : ℝ × ℝ := calcTrigFnc xhat (nodesOf c1 c2 c3) zhat

/-- The psi-angle pair of `_calc_rot_mtx` (rotation around local z). -/
def psiOf (c1 c2 c3 : V3) : ℝ × ℝ :=
  calcTrigFnc (nodesOf c1 c2 c3) (xOf c1 c2 c3) (zOf c1 c2 c3)

/-- The theta-angle pair of `_calc_rot_mtx` (rotation around the nodes line). -/
def thetaOf (c1 c2 c3 : V3) : ℝ × ℝ :=
  calcTrigFnc zhat (zOf c1 c2 c3) (nodesOf c1 c2 c3)

/-- The explicit 3 x 3 z-x-z Euler assembly of `_calc_rot_mtx`, with the six
trig values as arguments, entry for entry as in the source. -/
def rotAssemble (cph sph cps sps cth sth : ℝ) : Mat3 :=
  !![cps * cph - sps * sph * cth, sph * cps + sps * cth * cph, sps * sth;
     -1 * sps * cph - sph * cps * cth, -1 * sps * sph + cps * cth * cph, cps * sth;
     sth * sph, -sth * cph, cth]

/-- `SCModeler._calc_rot_mtx`: the rotation matrix of the local system of `c2`
together with the distance between `c1` and `c3`. -/
def calcRotMtx (c1 c2 c3 : V3) : Mat3 × ℝ :=
  (rotAssemble (phiOf c1 c2 c3).1 (phiOf c1 c2 c3).2
     (psiOf c1 c2 c3).1 (psiOf c1 c2 c3).2
     (thetaOf c1 c2 c3).1 (thetaOf c1 c2 c3).2,
   rdnormOf c1 c2 c3)

/-- `SCModeler._calc_scatter_coef`: piecewise-linear blend coefficient of the
span between the outer alpha carbons. -/
def scatterCoef (dist : ℝ) : ℝ :=
  if dist < 53/10 then 1
  else if 64/10 < dist then 0
  else (dist - 53/10) * (-(1 / (11/10))) + 1

/-- C5: the scatter coefficient is total and piecewise linear: 1 below 5.3,
0 above 6.4, the linear interpolation `(span - 5.3) * (-1/1.1) + 1` in
between; it takes the value 1 at 5.3 and 0 at 6.4, is monotonically
non-increasing on `[5.3, 6.4]`, and always lies in `[0, 1]`. -/
theorem C5_scatter_coefficient :
    (∀ d : ℝ, d < 53/10 → scatterCoef d = 1) ∧
    (∀ d : ℝ, 64/10 < d → scatterCoef d = 0) ∧
    (∀ d : ℝ, 53/10 ≤ d → d ≤ 64/10 →
      scatterCoef d = (d - 53/10) * (-(1 / (11/10))) + 1) ∧
    scatterCoef (53/10) = 1 ∧
    scatterCoef (64/10) = 0 ∧
    (∀ d e : ℝ, 53/10 ≤ d → d ≤ e → e ≤ 64/10 → scatterCoef e ≤ scatterCoef d) ∧
    (∀ d : ℝ, 0 ≤ scatterCoef d ∧ scatterCoef d ≤ 1) := by
  refine ⟨?_, ?_, ?_, ?_, ?_, ?_, ?_⟩
  · intro d hd
    simp only [scatterCoef, if_pos hd]
  · intro d hd
    rw [scatterCoef, if_neg (by linarith), if_pos hd]
  · intro d h1 h2
    rw [scatterCoef, if_neg (by linarith), if_neg (by linarith)]
  · rw [scatterCoef, if_neg (by norm_num), if_neg (by norm_num)]
    norm_num
  · rw [scatterCoef, if_neg (by norm_num), if_neg (by norm_num)]
    norm_num
  · intro d e h1 h2 h3
    rw [scatterCoef, if_neg (by linarith), if_neg (by linarith),
      scatterCoef, if_neg (by linarith), if_neg (by linarith)]
    have h4 : -(1 / ((11:ℝ)/10)) = -(10/11) := by norm_num
    rw [h4]
    nlinarith
  · intro d
    rw [scatterCoef]
    split_ifs with h1 h2
    · norm_num
    · norm_num
    · push_neg at h1 h2
      have h4 : -(1 / ((11:ℝ)/10)) = -(10/11) := by norm_num
      rw [h4]
      constructor <;> nlinarith

/-- Witness for C5: the theorem evaluated on concrete spans: the linear
formula at span 6, and monotonicity between spans 5.5 and 5.9. -/
theorem C5_scatter_coefficient_witness :
    scatterCoef 6 = (6 - 53/10) * (-(1 / (11/10))) + 1 ∧
    scatterCoef (59/10) ≤ scatterCoef (55/10) := by
  constructor
  · exact C5_scatter_coefficient.2.2.1 6 (by norm_num) (by norm_num)
  · exact C5_scatter_coefficient.2.2.2.2.2.1 (55/10) (59/10)
      (by norm_num) (by norm_num) (by norm_num)

/-- Component 2 of a 3-vector literal, for rewriting. -/
lemma vec3_two (a b c : ℝ) : (![a, b, c] : V3) 2 = c := rfl

/-- Component 1 of a 3-vector literal, for rewriting. -/
lemma vec3_one (a b c : ℝ) : (![a, b, c] : V3) 1 = b := rfl

/-- Component 0 of a 3-vector literal, for rewriting. -/
lemma vec3_zero (a b c : ℝ) : (![a, b, c] : V3) 0 = a := rfl

/-- The dot product of a 3-vector with itself is non-negative. -/
lemma dot3_self_nonneg (v : V3) : 0 ≤ dot3 v v := by
  simp only [dot3]
  nlinarith [mul_self_nonneg (v 0), mul_self_nonneg (v 1), mul_self_nonneg (v 2)]

/-- The squared Euclidean norm recovers the dot product. -/
lemma norm3_sq (v : V3) : norm3 v ^ 2 = dot3 v v :=
  Real.sq_sqrt (dot3_self_nonneg v)

/-- The norm of a 3-vector vanishes exactly on the zero vector. -/
lemma norm3_eq_zero_iff (v : V3) : norm3 v = 0 ↔ v = 0 := by
  constructor
  · intro h
    have h2 : dot3 v v = 0 := by
      have := norm3_sq v
      rw [h] at this
      simpa using this.symm
    have h0 : v 0 = 0 ∧ v 1 = 0 ∧ v 2 = 0 := by
      simp only [dot3] at h2
      refine ⟨?_, ?_, ?_⟩ <;> nlinarith [sq_nonneg (v 0), sq_nonneg (v 1), sq_nonneg (v 2)]
    funext j
    fin_cases j
    · exact h0.1
    · exact h0.2.1
    · exact h0.2.2
  · intro h
    subst h
    simp [norm3, dot3]

/-- Lagrange identity in three dimensions: the squared dot product plus the
squared cross product norm equals the product of the squared norms. -/
lemma lagrange3 (a b : V3) :
    dot3 a b ^ 2 + dot3 (cross3 a b) (cross3 a b) = dot3 a a * dot3 b b := by
  simp only [dot3, cross3, vec3_zero, vec3_one, vec3_two]
  ring

/-- The square of `sgn x` is 1 whenever `x` is nonzero. -/
lemma sgn_sq_of_ne (x : ℝ) (h : x ≠ 0) : sgn x ^ 2 = 1 := by
  rw [sgn]
  rcases lt_trichotomy 0 x with h1 | h1 | h1
  · rw [if_pos h1]; norm_num
  · exact absurd h1.symm h
  · rw [if_neg (by linarith), if_pos h1]; norm_num

/-- Any trig pair computed by `_calc_trig_fnc` from unit vectors lies on the
unit circle, provided the sign discriminant does not vanish on a nonzero
cross product. -/
lemma calcTrigFnc_sq (ve1 ve2 axis : V3)
    (h1 : dot3 ve1 ve1 = 1) (h2 : dot3 ve2 ve2 = 1)
    (hnd : cross3 ve1 ve2 = 0 ∨ dot3 (cross3 ve1 ve2) axis ≠ 0) :
    (calcTrigFnc ve1 ve2 axis).1 ^ 2 + (calcTrigFnc ve1 ve2 axis).2 ^ 2 = 1 := by
  have key := lagrange3 ve1 ve2
  rw [h1, h2, mul_one] at key
  rcases hnd with hc | hd
  · simp only [calcTrigFnc, hc]
    have hz : dot3 (0 : V3) (0 : V3) = 0 := by simp [dot3]
    rw [hc, hz] at key
    have : norm3 (0 : V3) = 0 := by simp [norm3, dot3]
    rw [this]
    linarith [key]
  · simp only [calcTrigFnc]
    rw [mul_pow, sgn_sq_of_ne _ hd, mul_one, norm3_sq]
    linarith [key]

/-- The z-axis Euler factor with explicit cosine and sine entries. -/
def zRot (c s : ℝ) : Mat3 := !![c, s, 0; -s, c, 0; 0, 0, 1]

/-- The x-axis Euler factor with explicit cosine and sine entries. -/
def xRot (c s : ℝ) : Mat3 := !![1, 0, 0; 0, c, s; 0, -s, c]

/-- The rotation assembly of `_calc_rot_mtx` is exactly the z-x-z Euler
product of its three trig pairs. -/
lemma rotAssemble_eq_prod (cph sph cps sps cth sth : ℝ) :
    rotAssemble cph sph cps sps cth sth =
      zRot cps sps * (xRot cth sth * zRot cph sph) := by
  ext i j
  fin_cases i <;> fin_cases j <;>
    simp [rotAssemble, zRot, xRot, Matrix.mul_apply, Fin.sum_univ_three] <;> ring

/-- Explicit transpose of a z-axis factor. -/
lemma zRot_transpose (c s : ℝ) :
    (zRot c s).transpose = !![c, -s, 0; s, c, 0; 0, 0, 1] := by
  ext i j
  fin_cases i <;> fin_cases j <;> rfl

/-- Explicit transpose of an x-axis factor. -/
lemma xRot_transpose (c s : ℝ) :
    (xRot c s).transpose = !![1, 0, 0; 0, c, -s; 0, s, c] := by
  ext i j
  fin_cases i <;> fin_cases j <;> rfl

/-- A z-axis factor with trig pair on the unit circle is orthogonal. -/
lemma zRot_mul_transpose (c s : ℝ) (h : c ^ 2 + s ^ 2 = 1) :
    zRot c s * (zRot c s).transpose = 1 := by
  rw [zRot_transpose]
  ext i j
  fin_cases i <;> fin_cases j <;>
    simp [zRot, Matrix.mul_apply, Fin.sum_univ_three, Matrix.one_apply,
      Matrix.vecHead, Matrix.vecTail] <;>
    nlinarith [h]

/-- An x-axis factor with trig pair on the unit circle is orthogonal. -/
lemma xRot_mul_transpose (c s : ℝ) (h : c ^ 2 + s ^ 2 = 1) :
    xRot c s * (xRot c s).transpose = 1 := by
  rw [xRot_transpose]
  ext i j
  fin_cases i <;> fin_cases j <;>
    simp [xRot, Matrix.mul_apply, Fin.sum_univ_three, Matrix.one_apply,
      Matrix.vecHead, Matrix.vecTail] <;>
    nlinarith [h]

/-- Determinant of a z-axis factor with trig pair on the unit circle. -/
lemma zRot_det (c s : ℝ) (h : c ^ 2 + s ^ 2 = 1) : (zRot c s).det = 1 := by
  simp [zRot, Matrix.det_fin_three]
  nlinarith [h]

/-- Determinant of an x-axis factor with trig pair on the unit circle. -/
lemma xRot_det (c s : ℝ) (h : c ^ 2 + s ^ 2 = 1) : (xRot c s).det = 1 := by
  simp [xRot, Matrix.det_fin_three]
  nlinarith [h]

/-- The assembled matrix is orthogonal with determinant one as soon as all
three trig pairs lie on the unit circle. -/
lemma rotAssemble_orthonormal (cph sph cps sps cth sth : ℝ)
    (h1 : cph ^ 2 + sph ^ 2 = 1) (h2 : cps ^ 2 + sps ^ 2 = 1)
    (h3 : cth ^ 2 + sth ^ 2 = 1) :
    rotAssemble cph sph cps sps cth sth *
      (rotAssemble cph sph cps sps cth sth).transpose = 1 ∧
    (rotAssemble cph sph cps sps cth sth).det = 1 := by
  rw [rotAssemble_eq_prod]
  constructor
  · rw [Matrix.transpose_mul, Matrix.transpose_mul]
    have e1 := zRot_mul_transpose cph sph h1
    have e2 := xRot_mul_transpose cth sth h3
    have e3 := zRot_mul_transpose cps sps h2
    calc zRot cps sps * (xRot cth sth * zRot cph sph) *
          ((zRot cph sph).transpose * (xRot cth sth).transpose *
            (zRot cps sps).transpose)
        = zRot cps sps * (xRot cth sth *
            ((zRot cph sph * (zRot cph sph).transpose) *
              (xRot cth sth).transpose)) * (zRot cps sps).transpose := by
          simp only [Matrix.mul_assoc]
      _ = 1 := by rw [e1, one_mul, e2, Matrix.mul_one, e3]
  · rw [Matrix.det_mul, Matrix.det_mul, zRot_det cps sps h2, xRot_det cth sth h3,
      zRot_det cph sph h1]
    norm_num

/-- A vector divided by its nonzero norm has unit dot square. -/
lemma div_norm_unit (v : V3) (h : norm3 v ≠ 0) :
    dot3 (fun j => v j / norm3 v) (fun j => v j / norm3 v) = 1 := by
  have hs : norm3 v ^ 2 = dot3 v v := norm3_sq v
  simp only [dot3] at hs ⊢
  field_simp
  linarith [hs]

/-- The local x-axis is a unit vector whenever the span is nonzero. -/
lemma xOf_unit (c1 c2 c3 : V3) (h : rdnormOf c1 c2 c3 ≠ 0) :
    dot3 (xOf c1 c2 c3) (xOf c1 c2 c3) = 1 :=
  div_norm_unit (rdifOf c1 c2 c3) h

/-- The local z-axis is a unit vector whenever the bisector is nonzero. -/
lemma zOf_unit (c1 c2 c3 : V3) (h : norm3 (rsumOf c1 c2 c3) ≠ 0) :
    dot3 (zOf c1 c2 c3) (zOf c1 c2 c3) = 1 := by
  have key := div_norm_unit (rsumOf c1 c2 c3) h
  simp only [dot3, zOf] at key ⊢
  ring_nf
  ring_nf at key
  linarith [key]

/-- The line of nodes is a unit vector: either it is the normalised cross
product, or the fallback local x-axis. -/
lemma nodesOf_unit (c1 c2 c3 : V3) (h : rdnormOf c1 c2 c3 ≠ 0) :
    dot3 (nodesOf c1 c2 c3) (nodesOf c1 c2 c3) = 1 := by
  rw [nodesOf, calcNodesLine]
  by_cases hz : norm3 (cross3 zhat (zOf c1 c2 c3)) = 0
  · rw [if_pos hz]
    exact xOf_unit c1 c2 c3 h
  · rw [if_neg hz]
    exact div_norm_unit _ hz

/-- C2 (amended): for every valid triplet (nonzero span and nonzero bisector)
such that none of the three sign discriminants of `_calc_trig_fnc` vanishes
on a nonzero cross product, the matrix built by `_calc_rot_mtx` is exactly
orthonormal with determinant exactly 1 (hence within 1e-9 of +1).  The
original claim for all valid non-collinear triplets is refuted by
`C2_counterexample`. -/
theorem C2_rotation_orthonormal (c1 c2 c3 : V3)
    (hx : rdnormOf c1 c2 c3 ≠ 0) (hz : norm3 (rsumOf c1 c2 c3) ≠ 0)
    (h1 : cross3 xhat (nodesOf c1 c2 c3) = 0 ∨
      dot3 (cross3 xhat (nodesOf c1 c2 c3)) zhat ≠ 0)
    (h2 : cross3 (nodesOf c1 c2 c3) (xOf c1 c2 c3) = 0 ∨
      dot3 (cross3 (nodesOf c1 c2 c3) (xOf c1 c2 c3)) (zOf c1 c2 c3) ≠ 0)
    (h3 : cross3 zhat (zOf c1 c2 c3) = 0 ∨
      dot3 (cross3 zhat (zOf c1 c2 c3)) (nodesOf c1 c2 c3) ≠ 0) :
    (calcRotMtx c1 c2 c3).1 * ((calcRotMtx c1 c2 c3).1).transpose = 1 ∧
    ((calcRotMtx c1 c2 c3).1).transpose * (calcRotMtx c1 c2 c3).1 = 1 ∧
    ((calcRotMtx c1 c2 c3).1).det = 1 := by
  have hxu : dot3 xhat xhat = 1 := by simp [dot3, xhat, vec3_zero, vec3_one, vec3_two]
  have hzu : dot3 zhat zhat = 1 := by simp [dot3, zhat, vec3_zero, vec3_one, vec3_two]
  have hxo := xOf_unit c1 c2 c3 hx
  have hzo := zOf_unit c1 c2 c3 hz
  have hno := nodesOf_unit c1 c2 c3 hx
  have e1 := calcTrigFnc_sq xhat (nodesOf c1 c2 c3) zhat hxu hno h1
  have e2 := calcTrigFnc_sq (nodesOf c1 c2 c3) (xOf c1 c2 c3) (zOf c1 c2 c3) hno hxo h2
  have e3 := calcTrigFnc_sq zhat (zOf c1 c2 c3) (nodesOf c1 c2 c3) hzu hzo h3
  have main := rotAssemble_orthonormal (phiOf c1 c2 c3).1 (phiOf c1 c2 c3).2
    (psiOf c1 c2 c3).1 (psiOf c1 c2 c3).2
    (thetaOf c1 c2 c3).1 (thetaOf c1 c2 c3).2 e1 e2 e3
  refine ⟨main.1, ?_, main.2⟩
  exact (Matrix.mul_eq_one_comm).mp main.1


/-- Evaluation of a concrete Euclidean norm via a square witness. -/
lemma norm3_eval (v : V3) (y : ℝ) (hy : 0 ≤ y) (h : dot3 v v = y ^ 2) :
    norm3 v = y := by
  rw [norm3, h, Real.sqrt_sq hy]

/-- The sign of a positive real is 1. -/
lemma sgn_pos (x : ℝ) (h : 0 < x) : sgn x = 1 := by rw [sgn, if_pos h]

/-- The sign of zero is zero, as for `np.sign`. -/
lemma sgn_zero : sgn 0 = 0 := by
  rw [sgn, if_neg (by norm_num), if_neg (by norm_num)]

/-- First point of the counterexample triplet for C2. -/
def cxC1 : V3 := ![-2, -2, 0]

/-- Second point of the counterexample triplet for C2. -/
def cxC2 : V3 := ![0, 0, 0]

/-- Third point of the counterexample triplet for C2. -/
def cxC3 : V3 := ![1, 2, 0]

/-- Span vector of the C2 counterexample triplet. -/
lemma cx_rdif : rdifOf cxC1 cxC2 cxC3 = ![3, 4, 0] := by
  funext j
  fin_cases j <;>
    norm_num [rdifOf, cxC1, cxC3, Pi.sub_apply, vec3_zero, vec3_one, vec3_two]

/-- Span length of the C2 counterexample triplet. -/
lemma cx_rdnorm : rdnormOf cxC1 cxC2 cxC3 = 5 := by
  rw [rdnormOf, cx_rdif]
  exact norm3_eval _ 5 (by norm_num)
    (by norm_num [dot3, vec3_zero, vec3_one, vec3_two])

/-- Bisector of the C2 counterexample triplet. -/
lemma cx_rsum : rsumOf cxC1 cxC2 cxC3 = ![-1, 0, 0] := by
  funext j
  fin_cases j <;>
    norm_num [rsumOf, cxC1, cxC2, cxC3, Pi.sub_apply, Pi.add_apply,
      vec3_zero, vec3_one, vec3_two]

/-- Bisector length of the C2 counterexample triplet. -/
lemma cx_rsumnorm : norm3 (rsumOf cxC1 cxC2 cxC3) = 1 := by
  rw [cx_rsum]
  exact norm3_eval _ 1 (by norm_num)
    (by norm_num [dot3, vec3_zero, vec3_one, vec3_two])

/-- Local z-axis of the C2 counterexample triplet. -/
lemma cx_z : zOf cxC1 cxC2 cxC3 = ![1, 0, 0] := by
  funext j
  rw [zOf, cx_rsumnorm, cx_rsum]
  fin_cases j <;> norm_num [vec3_zero, vec3_one, vec3_two]

/-- Local x-axis of the C2 counterexample triplet. -/
lemma cx_x : xOf cxC1 cxC2 cxC3 = ![3/5, 4/5, 0] := by
  funext j
  rw [xOf, cx_rdnorm, cx_rdif]
  fin_cases j <;> norm_num [vec3_zero, vec3_one, vec3_two]

/-- The node line of the C2 counterexample triplet: the world z and local z
are not parallel, so the normalised cross product is taken. -/
lemma cx_nodes : nodesOf cxC1 cxC2 cxC3 = ![0, 1, 0] := by
  have hcr : cross3 zhat (zOf cxC1 cxC2 cxC3) = ![0, 1, 0] := by
    rw [cx_z]
    funext j
    fin_cases j <;>
      norm_num [cross3, zhat, vec3_zero, vec3_one, vec3_two]
  have hn : norm3 (![(0:ℝ), 1, 0]) = 1 :=
    norm3_eval _ 1 (by norm_num)
      (by norm_num [dot3, vec3_zero, vec3_one, vec3_two])
  rw [nodesOf, calcNodesLine]
  simp only [hcr, hn]
  rw [if_neg (by norm_num), Option.getD_some]
  funext j
  fin_cases j <;> norm_num [vec3_zero, vec3_one, vec3_two]

/-- Phi trig pair of the C2 counterexample triplet. -/
lemma cx_phi : phiOf cxC1 cxC2 cxC3 = (0, 1) := by
  rw [phiOf, cx_nodes, calcTrigFnc]
  have hd : dot3 xhat ![(0:ℝ), 1, 0] = 0 := by
    norm_num [dot3, xhat, vec3_zero, vec3_one, vec3_two]
  have hcr : cross3 xhat ![(0:ℝ), 1, 0] = ![0, 0, 1] := by
    funext j
    fin_cases j <;>
      norm_num [cross3, xhat, vec3_zero, vec3_one, vec3_two]
  have hn : norm3 (![(0:ℝ), 0, 1]) = 1 :=
    norm3_eval _ 1 (by norm_num)
      (by norm_num [dot3, vec3_zero, vec3_one, vec3_two])
  have hda : dot3 ![(0:ℝ), 0, 1] zhat = 1 := by
    norm_num [dot3, zhat, vec3_zero, vec3_one, vec3_two]
  rw [hd, hcr, hn, hda, sgn_pos 1 (by norm_num)]
  norm_num

/-- Psi trig pair of the C2 counterexample triplet: here the cross product is
nonzero but its dot product with the axis vanishes, so `np.sign` yields 0 and
the sine collapses to 0 while the cosine is 4/5. -/
lemma cx_psi : psiOf cxC1 cxC2 cxC3 = (4/5, 0) := by
  rw [psiOf, cx_nodes, cx_x, cx_z, calcTrigFnc]
  have hd : dot3 ![(0:ℝ), 1, 0] ![(3:ℝ)/5, 4/5, 0] = 4/5 := by
    norm_num [dot3, vec3_zero, vec3_one, vec3_two]
  have hcr : cross3 ![(0:ℝ), 1, 0] ![(3:ℝ)/5, 4/5, 0] = ![0, 0, -(3/5)] := by
    funext j
    fin_cases j <;>
      norm_num [cross3, vec3_zero, vec3_one, vec3_two]
  have hda : dot3 ![(0:ℝ), 0, -(3/5)] ![(1:ℝ), 0, 0] = 0 := by
    norm_num [dot3, vec3_zero, vec3_one, vec3_two]
  rw [hd, hcr, hda, sgn_zero]
  norm_num

/-- Theta trig pair of the C2 counterexample triplet. -/
lemma cx_theta : thetaOf cxC1 cxC2 cxC3 = (0, 1) := by
  rw [thetaOf, cx_nodes, cx_z, calcTrigFnc]
  have hd : dot3 zhat ![(1:ℝ), 0, 0] = 0 := by
    norm_num [dot3, zhat, vec3_zero, vec3_one, vec3_two]
  have hcr : cross3 zhat ![(1:ℝ), 0, 0] = ![0, 1, 0] := by
    funext j
    fin_cases j <;>
      norm_num [cross3, zhat, vec3_zero, vec3_one, vec3_two]
  have hn : norm3 (![(0:ℝ), 1, 0]) = 1 :=
    norm3_eval _ 1 (by norm_num)
      (by norm_num [dot3, vec3_zero, vec3_one, vec3_two])
  have hda : dot3 ![(0:ℝ), 1, 0] ![(0:ℝ), 1, 0] = 1 := by
    norm_num [dot3, vec3_zero, vec3_one, vec3_two]
  rw [hd, hcr, hn, hda, sgn_pos 1 (by norm_num)]
  norm_num

/-- Counterexample to C2 as stated: the triplet `(-2,-2,0), (0,0,0), (1,2,0)`
is valid (nonzero span, nonzero bisector, genuinely non-collinear), yet the
matrix returned by `_calc_rot_mtx` has determinant 16/25, farther than 1e-9
from +1: the `np.sign` factor of the psi angle vanishes on a nonzero cross
product, so the computed sine is 0 while the cosine is 4/5. -/
theorem C2_counterexample :
    rdnormOf cxC1 cxC2 cxC3 ≠ 0 ∧
    norm3 (rsumOf cxC1 cxC2 cxC3) ≠ 0 ∧
    cross3 (cxC2 - cxC1) (cxC3 - cxC1) ≠ 0 ∧
    |((calcRotMtx cxC1 cxC2 cxC3).1).det - 1| > 1/1000000000 := by
  refine ⟨by rw [cx_rdnorm]; norm_num, by rw [cx_rsumnorm]; norm_num, ?_, ?_⟩
  · intro h
    have h2 : cross3 (cxC2 - cxC1) (cxC3 - cxC1) 2 = 2 := by
      norm_num [cross3, cxC1, cxC2, cxC3, Pi.sub_apply,
        vec3_zero, vec3_one, vec3_two]
    rw [h] at h2
    norm_num at h2
  · have hR : (calcRotMtx cxC1 cxC2 cxC3).1 = rotAssemble 0 1 (4/5) 0 0 1 := by
      rw [calcRotMtx, cx_phi, cx_psi, cx_theta]
    have hdet : ((calcRotMtx cxC1 cxC2 cxC3).1).det = 16/25 := by
      rw [hR, rotAssemble, Matrix.det_fin_three]
      norm_num [Matrix.cons_val_zero, Matrix.cons_val_one, Matrix.head_cons,
        Matrix.vecHead, Matrix.vecTail]
    rw [hdet]
    rw [show |(16:ℝ)/25 - 1| = 9/25 by rw [abs_of_nonpos (by norm_num)]; norm_num]
    norm_num

/-- First point of the witness triplet for C2. -/
def wtC1 : V3 := ![0, 0, 0]

/-- Second point of the witness triplet for C2. -/
def wtC2 : V3 := ![1, 1, 0]

/-- Third point of the witness triplet for C2. -/
def wtC3 : V3 := ![2, 0, 0]

/-- Span vector of the C2 witness triplet. -/
lemma wt_rdif : rdifOf wtC1 wtC2 wtC3 = ![2, 0, 0] := by
  funext j
  fin_cases j <;>
    norm_num [rdifOf, wtC1, wtC3, Pi.sub_apply, vec3_zero, vec3_one, vec3_two]

/-- Span length of the C2 witness triplet. -/
lemma wt_rdnorm : rdnormOf wtC1 wtC2 wtC3 = 2 := by
  rw [rdnormOf, wt_rdif]
  exact norm3_eval _ 2 (by norm_num)
    (by norm_num [dot3, vec3_zero, vec3_one, vec3_two])

/-- Bisector of the C2 witness triplet. -/
lemma wt_rsum : rsumOf wtC1 wtC2 wtC3 = ![0, -2, 0] := by
  funext j
  fin_cases j <;>
    norm_num [rsumOf, wtC1, wtC2, wtC3, Pi.sub_apply, Pi.add_apply,
      vec3_zero, vec3_one, vec3_two]

/-- Bisector length of the C2 witness triplet. -/
lemma wt_rsumnorm : norm3 (rsumOf wtC1 wtC2 wtC3) = 2 := by
  rw [wt_rsum]
  exact norm3_eval _ 2 (by norm_num)
    (by norm_num [dot3, vec3_zero, vec3_one, vec3_two])

/-- Local z-axis of the C2 witness triplet. -/
lemma wt_z : zOf wtC1 wtC2 wtC3 = ![0, 1, 0] := by
  funext j
  rw [zOf, wt_rsumnorm, wt_rsum]
  fin_cases j <;> norm_num [vec3_zero, vec3_one, vec3_two]

/-- Local x-axis of the C2 witness triplet. -/
lemma wt_x : xOf wtC1 wtC2 wtC3 = ![1, 0, 0] := by
  funext j
  rw [xOf, wt_rdnorm, wt_rdif]
  fin_cases j <;> norm_num [vec3_zero, vec3_one, vec3_two]

/-- Cross product of the world z-axis with the local z-axis of the C2
witness triplet. -/
lemma wt_cross : cross3 zhat (zOf wtC1 wtC2 wtC3) = ![-1, 0, 0] := by
  rw [wt_z]
  funext j
  fin_cases j <;>
    norm_num [cross3, zhat, vec3_zero, vec3_one, vec3_two]

/-- Node line of the C2 witness triplet. -/
lemma wt_nodes : nodesOf wtC1 wtC2 wtC3 = ![-1, 0, 0] := by
  have hn : norm3 (![(-1:ℝ), 0, 0]) = 1 :=
    norm3_eval _ 1 (by norm_num)
      (by norm_num [dot3, vec3_zero, vec3_one, vec3_two])
  rw [nodesOf, calcNodesLine]
  simp only [wt_cross, hn]
  rw [if_neg (by norm_num), Option.getD_some]
  funext j
  fin_cases j <;> norm_num [vec3_zero, vec3_one, vec3_two]

/-- Witness for C2 (amended): on the concrete valid triplet
`(0,0,0), (1,1,0), (2,0,0)` all three sign discriminants are nondegenerate
and the rotation matrix is orthonormal with determinant 1. -/
theorem C2_rotation_orthonormal_witness :
    (calcRotMtx wtC1 wtC2 wtC3).1 * ((calcRotMtx wtC1 wtC2 wtC3).1).transpose = 1 ∧
    ((calcRotMtx wtC1 wtC2 wtC3).1).transpose * (calcRotMtx wtC1 wtC2 wtC3).1 = 1 ∧
    ((calcRotMtx wtC1 wtC2 wtC3).1).det = 1 := by
  have h1 : cross3 xhat (nodesOf wtC1 wtC2 wtC3) = 0 := by
    rw [wt_nodes]
    funext j
    fin_cases j <;>
      norm_num [cross3, xhat, vec3_zero, vec3_one, vec3_two, Pi.zero_apply]
  have h2 : cross3 (nodesOf wtC1 wtC2 wtC3) (xOf wtC1 wtC2 wtC3) = 0 := by
    rw [wt_nodes, wt_x]
    funext j
    fin_cases j <;>
      norm_num [cross3, vec3_zero, vec3_one, vec3_two, Pi.zero_apply]
  have h3 : dot3 (cross3 zhat (zOf wtC1 wtC2 wtC3)) (nodesOf wtC1 wtC2 wtC3) ≠ 0 := by
    rw [wt_cross, wt_nodes]
    norm_num [dot3, vec3_zero, vec3_one, vec3_two]
  exact C2_rotation_orthonormal wtC1 wtC2 wtC3
    (by rw [wt_rdnorm]; norm_num)
    (by rw [wt_rsumnorm]; norm_num)
    (Or.inl h1) (Or.inl h2) (Or.inr h3)

/-- C9: for every triplet whose local z-axis is parallel to the world z-axis
(the cross product `(0,0,1) x z` is zero), the node-line computation under
raised floating-point errors signals (modelled `none`), the `try/except`
fallback sets the line of nodes to the local x-axis, and `_calc_rot_mtx`
still returns the matrix assembled from that fallback: the fault is caught
explicitly and never escapes. -/
theorem C9_nodes_line_fallback (c1 c2 c3 : V3)
    (h : cross3 zhat (zOf c1 c2 c3) = 0) :
    calcNodesLine zhat (zOf c1 c2 c3) = none ∧
    nodesOf c1 c2 c3 = xOf c1 c2 c3 ∧
    (calcRotMtx c1 c2 c3).1 =
      rotAssemble
        (calcTrigFnc xhat (xOf c1 c2 c3) zhat).1
        (calcTrigFnc xhat (xOf c1 c2 c3) zhat).2
        (calcTrigFnc (xOf c1 c2 c3) (xOf c1 c2 c3) (zOf c1 c2 c3)).1
        (calcTrigFnc (xOf c1 c2 c3) (xOf c1 c2 c3) (zOf c1 c2 c3)).2
        (calcTrigFnc zhat (zOf c1 c2 c3) (xOf c1 c2 c3)).1
        (calcTrigFnc zhat (zOf c1 c2 c3) (xOf c1 c2 c3)).2 := by
  have hz : norm3 (cross3 zhat (zOf c1 c2 c3)) = 0 := by
    rw [h]
    exact (norm3_eq_zero_iff _).mpr rfl
  have hnone : calcNodesLine zhat (zOf c1 c2 c3) = none := by
    simp [calcNodesLine, hz]
  have hw : nodesOf c1 c2 c3 = xOf c1 c2 c3 := by
    rw [nodesOf, hnone, Option.getD_none]
  refine ⟨hnone, hw, ?_⟩
  rw [calcRotMtx, phiOf, psiOf, thetaOf, hw]

/-- First point of the C9 witness triplet. -/
def fbC1 : V3 := ![0, 0, 0]

/-- Second point of the C9 witness triplet (lifted in z, so the local z-axis
coincides with the world z-axis). -/
def fbC2 : V3 := ![1, 0, 1]

/-- Third point of the C9 witness triplet. -/
def fbC3 : V3 := ![2, 0, 0]

/-- Bisector of the C9 witness triplet. -/
lemma fb_rsum : rsumOf fbC1 fbC2 fbC3 = ![0, 0, -2] := by
  funext j
  fin_cases j <;>
    norm_num [rsumOf, fbC1, fbC2, fbC3, Pi.sub_apply, Pi.add_apply,
      vec3_zero, vec3_one, vec3_two]

/-- Local z-axis of the C9 witness triplet is the world z-axis. -/
lemma fb_z : zOf fbC1 fbC2 fbC3 = ![0, 0, 1] := by
  have hn : norm3 (rsumOf fbC1 fbC2 fbC3) = 2 := by
    rw [fb_rsum]
    exact norm3_eval _ 2 (by norm_num)
      (by norm_num [dot3, vec3_zero, vec3_one, vec3_two])
  funext j
  rw [zOf, hn, fb_rsum]
  fin_cases j <;> norm_num [vec3_zero, vec3_one, vec3_two]

/-- Witness for C9: on the concrete triplet `(0,0,0), (1,0,1), (2,0,0)` the
local z-axis is the world z-axis, the node-line computation signals, and the
fallback produces the rotation assembled with the local x-axis as node line. -/
theorem C9_nodes_line_fallback_witness :
    calcNodesLine zhat (zOf fbC1 fbC2 fbC3) = none ∧
    nodesOf fbC1 fbC2 fbC3 = xOf fbC1 fbC2 fbC3 ∧
    (calcRotMtx fbC1 fbC2 fbC3).1 =
      rotAssemble
        (calcTrigFnc xhat (xOf fbC1 fbC2 fbC3) zhat).1
        (calcTrigFnc xhat (xOf fbC1 fbC2 fbC3) zhat).2
        (calcTrigFnc (xOf fbC1 fbC2 fbC3) (xOf fbC1 fbC2 fbC3) (zOf fbC1 fbC2 fbC3)).1
        (calcTrigFnc (xOf fbC1 fbC2 fbC3) (xOf fbC1 fbC2 fbC3) (zOf fbC1 fbC2 fbC3)).2
        (calcTrigFnc zhat (zOf fbC1 fbC2 fbC3) (xOf fbC1 fbC2 fbC3)).1
        (calcTrigFnc zhat (zOf fbC1 fbC2 fbC3) (xOf fbC1 fbC2 fbC3)).2 := by
  apply C9_nodes_line_fallback fbC1 fbC2 fbC3
  rw [fb_z]
  funext j
  fin_cases j <;>
    norm_num [cross3, zhat, vec3_zero, vec3_one, vec3_two, Pi.zero_apply]

/-- The `SIDECNT` table of side-chain offset templates: for each of the
twenty canonical residues, the compact offset (first three numbers) and
the extended offset (last three numbers); `none` models a `KeyError`. -/
def sidecnt (s : String) : Option (V3 × V3) :=
  if s = "CYS" then some (![-(139/1000), -(1265/1000), 1619/1000], ![19/1000, -(813/1000), 1897/1000])
  else if s = "GLN" then some (![-(95/1000), -(1674/1000), 2612/1000], ![47/1000, -(886/1000), 2991/1000])
  else if s = "ILE" then some (![94/1000, -(1416/1000), 1836/1000], ![-(105/1000), -(659/1000), 2219/1000])
  else if s = "SER" then some (![121/1000, -(1476/1000), 1186/1000], ![223/1000, -(1042/1000), 1571/1000])
  else if s = "VAL" then some (![264/1000, -(1194/1000), 1531/1000], ![77/1000, -(631/1000), 1854/1000])
  else if s = "MET" then some (![-(4/100), -(1446/1000), 2587/1000], ![72/1000, -(81/100), 2883/1000])
  else if s = "PRO" then some (![-(751/1000), -(1643/1000), 467/1000], ![-(1016/1000), -(1228/1000), 977/1000])
  else if s = "LYS" then some (![32/1000, -(1835/1000), 2989/1000], ![2/1000, -(882/1000), 3405/1000])
  else if s = "THR" then some (![75/1000, -(1341/1000), 1398/1000], ![51/1000, -(909/1000), 1712/1000])
  else if s = "PHE" then some (![151/1000, -(1256/1000), 3161/1000], ![-(448/1000), -(791/1000), 3286/1000])
  else if s = "ALA" then some (![253/1000, -(1133/1000), 985/1000], ![119/1000, -(763/1000), 1312/1000])
  else if s = "HIS" then some (![-(301/1000), -(1405/1000), 2801/1000], ![-(207/1000), -(879/1000), 3019/1000])
  else if s = "GLY" then some (![0, -(111/1000), -(111/1000)], ![0, -(111/1000), -(111/1000)])
  else if s = "ASP" then some (![-(287/1000), -(1451/1000), 1989/1000], ![396/1000, -(798/1000), 2313/1000])
  else if s = "GLU" then some (![-(28/1000), -(1774/1000), 2546/1000], ![96/1000, -(923/1000), 3016/1000])
  else if s = "LEU" then some (![-(69/1000), -(1247/1000), 2292/1000], ![2/1000, -(462/1000), 2579/1000])
  else if s = "ARG" then some (![-(57/1000), -(2522/1000), 3639/1000], ![-(57/1000), -(121/100), 3986/1000])
  else if s = "TRP" then some (![558/1000, -(1694/1000), 3433/1000], ![-(6/100), -(574/1000), 3834/1000])
  else if s = "ASN" then some (![-(402/1000), -(1237/1000), 2111/1000], ![132/1000, -(863/1000), 2328/1000])
  else if s = "TYR" then some (![308/1000, -(1387/1000), 3492/1000], ![-(618/1000), -(799/1000), 3634/1000])
  else none

/-- The list of consecutive triplets `vec[i:i+3]` visited by the loop of
`rebuild_one` over the padded backbone. -/
def windows3 : List V3 → List (V3 × V3 × V3)
  | [] => []
  | [_] => []
  | [_, _] => []
  | a :: b :: c :: rest => (a, b, c) :: windows3 (b :: c :: rest)
termination_by l => l.length
decreasing_by simp

/-- The number of windows is the padded length minus two. -/
lemma windows3_length : ∀ l : List V3, (windows3 l).length = l.length - 2
  | [] => by simp [windows3]
  | [a] => by simp [windows3]
  | [a, b] => by simp [windows3]
  | a :: b :: c :: rest => by
    have ih := windows3_length (b :: c :: rest)
    simp only [windows3, List.length_cons, ih]
    omega
termination_by l => l.length
decreasing_by simp

/-- One iteration of the `rebuild_one` loop at index `i` on the triplet `t`:
looks up the residue template (a `KeyError` is `none`), blends the two
offsets by the scatter coefficient of the span, rotates the blend into world
coordinates and translates by the central alpha carbon. -/
def placeOne (resn : ℕ → String) (sc : Bool) (i : ℕ) (t : V3 × V3 × V3) : Option V3 :=
  (sidecnt (if sc then resn i else "ALA")).map (fun pr j =>
    Matrix.vecMul
      (fun k => scatterCoef (calcRotMtx t.1 t.2.1 t.2.2).2 * pr.1 k +
        (1 - scatterCoef (calcRotMtx t.1 t.2.1 t.2.2).2) * pr.2 k)
      (calcRotMtx t.1 t.2.1 t.2.2).1 j + t.2.1 j)

/-- The loop of `rebuild_one` over the window list, carrying the mer index. -/
def rebuildLoop (resn : ℕ → String) (sc : Bool) : ℕ → List (V3 × V3 × V3) → Option (List V3)
  | _, [] => some []
  | i, t :: rest => do
    let p ← placeOne resn sc i t
    let ps ← rebuildLoop resn sc (i + 1) rest
    pure (p :: ps)

/-- `SCModeler.rebuild_one`: pads the C-alpha trace with a ghost point at each
end (failing like the Python `IndexError` when the trace is shorter than 3)
and rebuilds one pseudo-atom per original mer. -/
def rebuildOne (resn : ℕ → String) (sc : Bool) (vec : List V3) : Option (List V3) := do
  let v0 ← vec.get? 0
  let v1 ← vec.get? 1
  let v2 ← vec.get? 2
  let wlist := (v0 - (v2 - v1)) :: vec
  let a ← wlist.get? (wlist.length - 1)
  let b ← wlist.get? (wlist.length - 2)
  let c ← wlist.get? (wlist.length - 3)
  let padded := wlist ++ [a + (b - c)]
  rebuildLoop resn sc 0 (windows3 padded)

/-- The placeholder residue ALA is present in the offset table. -/
lemma sidecnt_ala_isSome : (sidecnt "ALA").isSome := by simp [sidecnt]

/-- One placement step succeeds exactly when the residue lookup succeeds. -/
lemma placeOne_isSome (resn : ℕ → String) (sc : Bool) (i : ℕ) (t : V3 × V3 × V3)
    (h : (sidecnt (if sc then resn i else "ALA")).isSome) :
    (placeOne resn sc i t).isSome := by
  rw [placeOne]
  cases hx : sidecnt (if sc then resn i else "ALA") with
  | none => rw [hx] at h; simp at h
  | some v => simp

/-- The rebuilding loop succeeds and returns one point per window as soon as
every residue lookup it performs succeeds. -/
lemma rebuildLoop_some (resn : ℕ → String) (sc : Bool) :
    ∀ (l : List (V3 × V3 × V3)) (i : ℕ),
      (∀ k, k < l.length → (sidecnt (if sc then resn (i + k) else "ALA")).isSome) →
      ∃ ys, rebuildLoop resn sc i l = some ys ∧ ys.length = l.length := by
  intro l
  induction l with
  | nil => exact fun i _ => ⟨[], rfl, rfl⟩
  | cons t rest ih =>
    intro i h
    have h0 := h 0 (by simp)
    rw [Nat.add_zero] at h0
    obtain ⟨p, hp⟩ := Option.isSome_iff_exists.mp (placeOne_isSome resn sc i t h0)
    obtain ⟨ys, hys, hlen⟩ := ih (i + 1) (fun k hk => by
      have hx := h (k + 1) (by simpa using Nat.succ_lt_succ hk)
      rwa [show i + (k + 1) = i + 1 + k by omega] at hx)
    refine ⟨p :: ys, ?_, by simp [hlen]⟩
    rw [rebuildLoop]
    rw [hp, hys]
    rfl

/-- Core lemma for `rebuild_one`: on a backbone of length at least 3 whose
residue lookups all succeed, the function succeeds and returns exactly one
rebuilt point per input mer. -/
lemma rebuildOne_some (resn : ℕ → String) (sc : Bool) (vec : List V3)
    (h3 : 3 ≤ vec.length)
    (hres : ∀ i, i < vec.length → (sidecnt (if sc then resn i else "ALA")).isSome) :
    ∃ ys, rebuildOne resn sc vec = some ys ∧ ys.length = vec.length := by
  obtain ⟨v0, hv0⟩ : ∃ x, vec.get? 0 = some x :=
    ⟨_, List.get?_eq_get (by omega)⟩
  obtain ⟨v1, hv1⟩ : ∃ x, vec.get? 1 = some x :=
    ⟨_, List.get?_eq_get (by omega)⟩
  obtain ⟨v2, hv2⟩ : ∃ x, vec.get? 2 = some x :=
    ⟨_, List.get?_eq_get (by omega)⟩
  have hlw : ((v0 - (v2 - v1)) :: vec).length = vec.length + 1 := by simp
  obtain ⟨a, ha⟩ : ∃ x, ((v0 - (v2 - v1)) :: vec).get?
      (((v0 - (v2 - v1)) :: vec).length - 1) = some x :=
    ⟨_, List.get?_eq_get (by omega)⟩
  obtain ⟨b, hb⟩ : ∃ x, ((v0 - (v2 - v1)) :: vec).get?
      (((v0 - (v2 - v1)) :: vec).length - 2) = some x :=
    ⟨_, List.get?_eq_get (by omega)⟩
  obtain ⟨c, hc⟩ : ∃ x, ((v0 - (v2 - v1)) :: vec).get?
      (((v0 - (v2 - v1)) :: vec).length - 3) = some x :=
    ⟨_, List.get?_eq_get (by omega)⟩
  have hwin : (windows3 (((v0 - (v2 - v1)) :: vec) ++ [a + (b - c)])).length
      = vec.length := by
    rw [windows3_length]
    simp
  obtain ⟨ys, hys, hlen⟩ := rebuildLoop_some resn sc
    (windows3 (((v0 - (v2 - v1)) :: vec) ++ [a + (b - c)])) 0
    (fun k hk => by
      rw [Nat.zero_add]
      exact hres k (by rwa [hwin] at hk))
  refine ⟨ys, ?_, by rw [hlen, hwin]⟩
  have hstep : rebuildOne resn sc vec = (do
      let a ← ((v0 - (v2 - v1)) :: vec).get? (((v0 - (v2 - v1)) :: vec).length - 1)
      let b ← ((v0 - (v2 - v1)) :: vec).get? (((v0 - (v2 - v1)) :: vec).length - 2)
      let c ← ((v0 - (v2 - v1)) :: vec).get? (((v0 - (v2 - v1)) :: vec).length - 3)
      rebuildLoop resn sc 0 (windows3 (((v0 - (v2 - v1)) :: vec) ++ [a + (b - c)]))) := by
    rw [rebuildOne, hv0, hv1, hv2]
    rfl
  rw [hstep, ha]
  show (do
      let b ← ((v0 - (v2 - v1)) :: vec).get? (((v0 - (v2 - v1)) :: vec).length - 2)
      let c ← ((v0 - (v2 - v1)) :: vec).get? (((v0 - (v2 - v1)) :: vec).length - 3)
      rebuildLoop resn sc 0 (windows3 (((v0 - (v2 - v1)) :: vec) ++ [a + (b - c)])))
    = some ys
  rw [hb]
  show (do
      let c ← ((v0 - (v2 - v1)) :: vec).get? (((v0 - (v2 - v1)) :: vec).length - 3)
      rebuildLoop resn sc 0 (windows3 (((v0 - (v2 - v1)) :: vec) ++ [a + (b - c)])))
    = some ys
  rw [hc]
  exact hys

/-- C3 (amended): `rebuild_one` succeeds and returns exactly `n` points for
every backbone of length `n >= 3` (not `n >= 1`: the ghost-point construction
indexes `vec[2]` and raises `IndexError` for `n < 3`, see
`C3_counterexample`), provided each residue type resolves in the template
table (automatic when side chains are disabled). -/
theorem C3_rebuild_length (resn : ℕ → String) (sc : Bool) (vec : List V3)
    (h3 : 3 ≤ vec.length)
    (hres : sc = true → ∀ i, i < vec.length → (sidecnt (resn i)).isSome) :
    ∃ ys, rebuildOne resn sc vec = some ys ∧ ys.length = vec.length := by
  apply rebuildOne_some resn sc vec h3
  intro i hi
  cases sc with
  | false => simpa using sidecnt_ala_isSome
  | true => simpa using hres rfl i hi

/-- Counterexample to C3 as stated: on a backbone of length 1 the very first
ghost-point computation indexes `vec[2]`, which does not exist, so
`rebuild_one` fails (Python `IndexError`) instead of returning 1 point. -/
theorem C3_counterexample :
    rebuildOne (fun _ => "ALA") true [![0, 0, 0]] = none := rfl

/-- Witness for C3 (amended): a concrete three-point backbone rebuilds into
exactly three points. -/
theorem C3_rebuild_length_witness :
    ∃ ys, rebuildOne (fun _ => "ALA") false [![0, 0, 0], ![1, 0, 0], ![2, 0, 0]]
      = some ys ∧ ys.length = 3 := by
  exact C3_rebuild_length (fun _ => "ALA") false _ (by norm_num)
    (fun h => by cases h)

/-- C4 (amended): a fully degenerate backbone (all alpha carbons coincident,
so every triplet has zero span and zero bisector) raises nothing:
`rebuild_one` completes and returns a result.  In the source the zero-span
division `rdif / rdnorm` runs under numpy's default error state, which only
warns and yields non-finite values; no `DegenerateGeometryError` exists in
the repository and no exception propagates.  The original claim is refuted
by `C4_counterexample`. -/
theorem C4_degenerate_no_error (resn : ℕ → String) (p : V3) (n : ℕ) (h3 : 3 ≤ n) :
    rdnormOf p p p = 0 ∧
    (rebuildOne resn false (List.replicate n p)).isSome := by
  constructor
  · rw [rdnormOf, rdifOf, sub_self]
    exact (norm3_eq_zero_iff _).mpr rfl
  · obtain ⟨ys, hys, _⟩ := rebuildOne_some resn false (List.replicate n p)
      (by simpa using h3)
      (fun i _ => by simpa using sidecnt_ala_isSome)
    rw [hys]
    rfl

/-- Counterexample to C4 as stated: the fully coincident backbone
`[(1,1,1), (1,1,1), (1,1,1)]` has zero span in every padded triplet, yet
`rebuild_one` does not fail with any error: it returns a value. -/
theorem C4_counterexample :
    rdnormOf ![(1:ℝ), 1, 1] ![(1:ℝ), 1, 1] ![(1:ℝ), 1, 1] = 0 ∧
    (rebuildOne (fun _ => "ALA") false
      [![(1:ℝ), 1, 1], ![(1:ℝ), 1, 1], ![(1:ℝ), 1, 1]]).isSome = true := by
  constructor
  · rw [rdnormOf, rdifOf, sub_self]
    exact (norm3_eq_zero_iff _).mpr rfl
  · obtain ⟨ys, hys, _⟩ := rebuildOne_some (fun _ => "ALA") false
      [![(1:ℝ), 1, 1], ![(1:ℝ), 1, 1], ![(1:ℝ), 1, 1]]
      (by norm_num)
      (fun i _ => by simpa using sidecnt_ala_isSome)
    rw [hys]
    rfl

/-- Witness for C4 (amended): the amended theorem applied to the concrete
degenerate backbone of three coincident points `(2, 0, 5)`. -/
theorem C4_degenerate_no_error_witness :
    rdnormOf ![(2:ℝ), 0, 5] ![(2:ℝ), 0, 5] ![(2:ℝ), 0, 5] = 0 ∧
    (rebuildOne (fun _ => "GLY") false (List.replicate 3 ![(2:ℝ), 0, 5])).isSome :=
  C4_degenerate_no_error (fun _ => "GLY") ![(2:ℝ), 0, 5] 3 (by norm_num)

/-- An SVD backend with the interface of `np.linalg.svd` on 3 x 3 matrices:
returns the triple `v, s, w` (left factor, singular values, right factor).
The backend is external to the repository, so it is a parameter of the
embedding. -/
abbrev Svd := Mat3 → Mat3 × (Fin 3 → ℝ) × Mat3

/-- Weighted average of points along axis 0 (`np.average(pts, 0, w)`). -/
def avgW {n : ℕ} (w : Fin n → ℝ) (pts : Fin n → V3) : V3 :=
  fun j => (∑ i, w i * pts i j) / (∑ i, w i)

/-- Unweighted average of points along axis 0. -/
def avgU {n : ℕ} (pts : Fin n → V3) : V3 :=
  fun j => (∑ i, pts i j) / (n : ℝ)

/-- `np.average(pts, axis=0, weights=weights)` with optional weights. -/
def avgOpt {n : ℕ} (weights : Option (Fin n → ℝ)) (pts : Fin n → V3) : V3 :=
  match weights with
  | none => avgU pts
  | some w => avgW w pts

/-- Weighted cross-covariance `np.dot(weights * t.T, q)`. -/
def covW {n : ℕ} (w : Fin n → ℝ) (t q : Fin n → V3) : Mat3 :=
  Matrix.of fun j k => ∑ i, w i * t i j * q i k

/-- Unweighted cross-covariance `np.dot(t.T, q)`. -/
def covU {n : ℕ} (t q : Fin n → V3) : Mat3 :=
  Matrix.of fun j k => ∑ i, t i j * q i k

/-- The reflection-correction matrix `d` of `kabsch`: the identity, with the
last diagonal entry flipped when `det(c) < 0`. -/
def reflFix (c : Mat3) : Mat3 :=
  if c.det < 0 then Matrix.diagonal ![1, 1, -1] else 1

/-- The points recentred on their weighted centroid. -/
def cenW {n : ℕ} (w : Fin n → ℝ) (pts : Fin n → V3) : Fin n → V3 :=
  fun i j => pts i j - avgW w pts j

/-- The `kabsch` function: optionally centres both point sets on their
(weighted) centroids, forms the cross-covariance, asks the SVD backend for
`v, s, w`, corrects for reflections by the sign of `det(c)`, and returns
`w.T * d * v.T`. -/
def kabsch {n : ℕ} (svd : Svd) (target query : Fin n → V3)
    (weights : Option (Fin n → ℝ)) (concentric : Bool) : Mat3 :=
  let t := if concentric then target
    else fun i j => target i j - avgOpt weights target j
  let q := if concentric then query
    else fun i j => query i j - avgOpt weights query j
  let c := match weights with
    | some w => covW w t q
    | none => covU t q
  let vsw := svd c
  vsw.2.2.transpose * reflFix c * vsw.1.transpose

/-- Weighted average of a scalar sequence (`np.average(vals, 0, w)`). -/
def avgWs {n : ℕ} (w : Fin n → ℝ) (vals : Fin n → ℝ) : ℝ :=
  (∑ i, w i * vals i) / (∑ i, w i)

/-- Unweighted average of a scalar sequence. -/
def avgUs {n : ℕ} (vals : Fin n → ℝ) : ℝ :=
  (∑ i, vals i) / (n : ℝ)

/-- The raw weighted root-mean-square displacement computed by `rmsd` before
thresholding: the variable `_rmsd` of the source. -/
def rmsdRaw {n : ℕ} (target : Fin n → V3) (query : Option (Fin n → V3))
    (weights : Option (Fin n → ℝ)) : ℝ :=
  let diff := match query with
    | none => target
    | some qq => fun i j => qq i j - target i j
  let vals := fun i => ∑ j, diff i j ^ 2
  Real.sqrt (match weights with
    | none => avgUs vals
    | some w => avgWs w vals)

/-- The `rmsd` function: the raw value if it exceeds `_TINY = 0.001`, else
exactly 0. -/
def rmsd {n : ℕ} (target : Fin n → V3) (query : Option (Fin n → V3))
    (weights : Option (Fin n → ℝ)) : ℝ :=
  if 1/1000 < rmsdRaw target query weights then rmsdRaw target query weights else 0

/-- C8 (amended): `rmsd` computes the weighted root-mean-square of the
per-point Euclidean displacements (stated through the Euclidean norm of each
displacement), reports every raw value less than or equal to 0.001 as exactly
0, and returns every raw value strictly greater than 0.001 unchanged.  The
original claim ("at least 0.001 is returned unchanged") fails at the boundary
value exactly 0.001, see `C8_counterexample`. -/
theorem C8_rmsd_policy {n : ℕ} (target query : Fin n → V3) (w : Fin n → ℝ) :
    rmsdRaw target (some query) (some w) =
      Real.sqrt ((∑ i, w i * norm3 (fun j => query i j - target i j) ^ 2) /
        ∑ i, w i) ∧
    (rmsdRaw target (some query) (some w) ≤ 1/1000 →
      rmsd target (some query) (some w) = 0) ∧
    (1/1000 < rmsdRaw target (some query) (some w) →
      rmsd target (some query) (some w) = rmsdRaw target (some query) (some w)) := by
  refine ⟨?_, ?_, ?_⟩
  · simp only [rmsdRaw, avgWs]
    have hnum : (∑ i, w i * ∑ j, (query i j - target i j) ^ 2)
        = ∑ i, w i * norm3 (fun j => query i j - target i j) ^ 2 :=
      Finset.sum_congr rfl fun i _ => by
        rw [norm3_sq]
        simp only [dot3, Fin.sum_univ_three]
        ring
    rw [hnum]
  · intro h
    rw [rmsd, if_neg (not_lt.mpr h)]
  · intro h
    rw [rmsd, if_pos h]

/-- Counterexample to C8 as stated: a single displacement of length exactly
0.001 gives a raw root-mean-square of exactly 0.001, which the code reports
as 0 instead of returning it unchanged. -/
theorem C8_counterexample :
    rmsdRaw (![![1/1000, 0, 0]] : Fin 1 → V3) none none = 1/1000 ∧
    rmsd (![![1/1000, 0, 0]] : Fin 1 → V3) none none = 0 := by
  have hraw : rmsdRaw (![![1/1000, 0, 0]] : Fin 1 → V3) none none = 1/1000 := by
    rw [rmsdRaw]
    have hv : (avgUs fun i : Fin 1 =>
        ∑ j, ((![![1/1000, 0, 0]] : Fin 1 → V3) i j) ^ 2) = 1/1000000 := by
      simp only [avgUs]
      norm_num [Fin.sum_univ_one, Fin.sum_univ_three, vec3_zero, vec3_one, vec3_two]
    rw [hv]
    rw [show (1/1000000 : ℝ) = (1/1000)^2 by norm_num, Real.sqrt_sq (by norm_num)]
  refine ⟨hraw, ?_⟩
  rw [rmsd, hraw, if_neg (by norm_num)]

/-- Witness for C8 (amended): on a pair of identical single-point sets the
raw value is 0 and the reported value is exactly 0. -/
theorem C8_rmsd_policy_witness :
    rmsd (![![1, 2, 3]] : Fin 1 → V3) (some ![![1, 2, 3]]) (some ![1]) = 0 := by
  apply (C8_rmsd_policy (![![1, 2, 3]] : Fin 1 → V3) ![![1, 2, 3]] ![1]).2.1
  rw [rmsdRaw]
  have hv : (avgWs (![1] : Fin 1 → ℝ) fun i : Fin 1 =>
      ∑ j, (((fun i j => (![![1, 2, 3]] : Fin 1 → V3) i j -
        (![![1, 2, 3]] : Fin 1 → V3) i j) : Fin 1 → V3) i j) ^ 2) = 0 := by
    simp only [avgWs]
    norm_num [Fin.sum_univ_one, Fin.sum_univ_three, vec3_zero, vec3_one, vec3_two]
  rw [hv, Real.sqrt_zero]
  norm_num

/-- Rescaling all weights by a positive constant leaves the weighted
centroid unchanged. -/
lemma avgW_smul {n : ℕ} (k : ℝ) (hk : k ≠ 0) (w : Fin n → ℝ) (pts : Fin n → V3) :
    avgW (fun i => k * w i) pts = avgW w pts := by
  funext j
  simp only [avgW]
  rw [show (∑ i, k * w i * pts i j) = k * ∑ i, w i * pts i j by
      rw [Finset.mul_sum]
      exact Finset.sum_congr rfl fun i _ => by ring,
    show (∑ i, k * w i) = k * ∑ i, w i by rw [Finset.mul_sum],
    mul_div_mul_left _ _ hk]

/-- Rescaling all weights by a constant scales the cross-covariance. -/
lemma covW_smul {n : ℕ} (k : ℝ) (w : Fin n → ℝ) (t q : Fin n → V3) :
    covW (fun i => k * w i) t q = k • covW w t q := by
  ext j l
  simp only [covW, Matrix.smul_apply, Matrix.of_apply, smul_eq_mul]
  rw [Finset.mul_sum]
  exact Finset.sum_congr rfl fun i _ => by ring

/-- Scaling a 3 x 3 matrix by a positive constant does not change the sign
test of its determinant, hence not the reflection correction. -/
lemma reflFix_smul (k : ℝ) (hk : 0 < k) (c : Mat3) :
    reflFix (k • c) = reflFix c := by
  have hdet : (k • c).det = k ^ 3 * c.det := by
    rw [Matrix.det_smul]
    norm_num
  have hiff : (k • c).det < 0 ↔ c.det < 0 := by
    rw [hdet]
    constructor
    · intro h
      nlinarith [pow_pos hk 3]
    · intro h
      have h3 : (0:ℝ) < k ^ 3 := pow_pos hk 3
      nlinarith
  rw [reflFix, reflFix]
  by_cases h : c.det < 0
  · rw [if_pos (hiff.mpr h), if_pos h]
  · rw [if_neg (fun hx => h (hiff.mp hx)), if_neg h]

/-- C6: with `concentric=False`, scaling all weights by a positive constant
`k` leaves the rotation returned by `kabsch` unchanged: the weighted
centroids are invariant, the cross-covariance scales by `k`, and the sign of
its determinant is preserved, so any SVD backend whose `v` and `w` factors
are invariant under the positive rescaling of its input (hypotheses `hsvdV`,
`hsvdW`; true in particular of every deterministic backend that scales only
the singular values) produces the identical rotation. -/
theorem C6_kabsch_weight_scaling {n : ℕ} (svd : Svd) (target query : Fin n → V3)
    (w : Fin n → ℝ) (k : ℝ) (hk : 0 < k) (hw : ∀ i, 0 ≤ w i)
    (hsum : 0 < ∑ i, w i)
    (hsvdV : (svd (k • covW w (cenW w target) (cenW w query))).1
           = (svd (covW w (cenW w target) (cenW w query))).1)
    (hsvdW : (svd (k • covW w (cenW w target) (cenW w query))).2.2
           = (svd (covW w (cenW w target) (cenW w query))).2.2) :
    kabsch svd target query (some (fun i => k * w i)) false
      = kabsch svd target query (some w) false := by
  have havgT : avgOpt (some fun i => k * w i) target = avgOpt (some w) target :=
    avgW_smul k (ne_of_gt hk) w target
  have havgQ : avgOpt (some fun i => k * w i) query = avgOpt (some w) query :=
    avgW_smul k (ne_of_gt hk) w query
  have hcenT : (fun i j => target i j - avgOpt (some fun i => k * w i) target j)
      = cenW w target := by
    rw [havgT]
    funext i j
    simp [cenW, avgOpt]
  have hcenQ : (fun i j => query i j - avgOpt (some fun i => k * w i) query j)
      = cenW w query := by
    rw [havgQ]
    funext i j
    simp [cenW, avgOpt]
  have hcov : covW (fun i => k * w i) (cenW w target) (cenW w query)
      = k • covW w (cenW w target) (cenW w query) :=
    covW_smul k w (cenW w target) (cenW w query)
  simp only [kabsch, Bool.false_eq_true, if_false, hcenT, hcenQ]
  have hcenT2 : (fun i j => target i j - avgOpt (some w) target j) = cenW w target := by
    funext i j
    simp [cenW, avgOpt]
  have hcenQ2 : (fun i j => query i j - avgOpt (some w) query j) = cenW w query := by
    funext i j
    simp [cenW, avgOpt]
  rw [hcenT2, hcenQ2, hcov, hsvdV, hsvdW, reflFix_smul k hk]

/-- A trivial constant SVD backend used by concrete witnesses: it always
returns identity factors and zero singular values. -/
def idSvd : Svd := fun _ => (1, fun _ => 0, 1)

/-- Witness for C6: doubling the unit weight of a one-point alignment with a
constant SVD backend returns the same rotation. -/
theorem C6_kabsch_weight_scaling_witness :
    kabsch idSvd (![![1, 2, 3]] : Fin 1 → V3) ![![1, 2, 3]]
      (some (fun i => 2 * (fun _ => (1:ℝ)) i)) false
    = kabsch idSvd (![![1, 2, 3]] : Fin 1 → V3) ![![1, 2, 3]]
      (some (fun _ => 1)) false := by
  apply C6_kabsch_weight_scaling idSvd (![![1, 2, 3]] : Fin 1 → V3) ![![1, 2, 3]]
    (fun _ => 1) 2 (by norm_num) (fun i => by norm_num)
  · norm_num [Fin.sum_univ_one]
  · rfl
  · rfl

/-- The target centroid `t_com = np.average(target, 0, w)` of one
`dynamic_kabsch` iteration with weights `w`. -/
def dkTcom {n : ℕ} (t : Fin n → V3) (w : Fin n → ℝ) : V3 := avgW w t

/-- The query centroid `q_com = np.average(query, 0, w)` of one iteration. -/
def dkQcom {n : ℕ} (q : Fin n → V3) (w : Fin n → ℝ) : V3 := avgW w q

/-- The centred target `t = target - t_com` of one iteration. -/
def dkTcen {n : ℕ} (t : Fin n → V3) (w : Fin n → ℝ) : Fin n → V3 :=
  fun i j => t i j - dkTcom t w j

/-- The centred query `q = query - q_com` of one iteration. -/
def dkQcen {n : ℕ} (q : Fin n → V3) (w : Fin n → ℝ) : Fin n → V3 :=
  fun i j => q i j - dkQcom q w j

/-- The rotation `r = kabsch(t, q, weights=w, concentric=True)` of one
iteration. -/
def dkRot {n : ℕ} (svd : Svd) (t q : Fin n → V3) (w : Fin n → ℝ) : Mat3 :=
  kabsch svd (dkTcen t w) (dkQcen q w) (some w) true

/-- The residuals `_diff = np.dot(q, r) - t` of one iteration. -/
def dkDiff {n : ℕ} (svd : Svd) (t q : Fin n → V3) (w : Fin n → ℝ) : Fin n → V3 :=
  fun i j => Matrix.vecMul (dkQcen q w i) (dkRot svd t q w) j - dkTcen t w i j

/-- The reported RMSD `_current = rmsd(_diff, weights=w)` of one iteration. -/
def dkCur {n : ℕ} (svd : Svd) (t q : Fin n → V3) (w : Fin n → ℝ) : ℝ :=
  rmsd (dkDiff svd t q w) none (some w)

/-- The reweighting `w = np.exp(-np.sum(_diff ** 2, axis=1) / max(_rmsd, 2.))`
performed after an unconverged iteration (where `_rmsd` has just been set to
`_current`). -/
def dkNextW {n : ℕ} (svd : Svd) (t q : Fin n → V3) (w : Fin n → ℝ) : Fin n → ℝ :=
  fun i => Real.exp (-(∑ j, dkDiff svd t q w i j ^ 2) / max (dkCur svd t q w) 2)

/-- The state transformer of the `dynamic_kabsch` loop on the pair
(previous rmsd, weights). -/
def dkStep {n : ℕ} (svd : Svd) (t q : Fin n → V3) (st : ℝ × (Fin n → ℝ)) :
    ℝ × (Fin n → ℝ) :=
  (dkCur svd t q st.2, dkNextW svd t q st.2)

/-- The message of the exception raised when the iteration budget runs out,
with `_MAX_ITER = 100` interpolated. -/
def dkMsg : String := "Dynamic Kabsch did not converge in 100 steps."

/-- The fuelled `for i in range(_MAX_ITER)` loop of `dynamic_kabsch`: on
convergence (`|_current - _rmsd| < _TINY`) it returns the previous rmsd
together with the current iteration's rotation and centroids; otherwise it
recurses on the updated state; with no fuel left it raises. -/
def dkLoop {n : ℕ} (svd : Svd) (t q : Fin n → V3) :
    ℕ → ℝ × (Fin n → ℝ) → Except String (ℝ × Mat3 × V3 × V3)
  | 0, _ => Except.error dkMsg
  | f + 1, st =>
    if |dkCur svd t q st.2 - st.1| < 1/1000 then
      Except.ok (st.1, dkRot svd t q st.2, dkTcom t st.2, dkQcom q st.2)
    else dkLoop svd t q f (dkStep svd t q st)

/-- `dynamic_kabsch`: 100 iterations of the reweighted loop, starting from
the sentinel `_LARGE = 1000.` and unit weights. -/
def dynamicKabsch {n : ℕ} (svd : Svd) (t q : Fin n → V3) :
    Except String (ℝ × Mat3 × V3 × V3) :=
  dkLoop svd t q 100 (1000, fun _ => 1)

/-- Unfolding of one loop step with fuel left. -/
lemma dkLoop_succ {n : ℕ} (svd : Svd) (t q : Fin n → V3) (f : ℕ)
    (st : ℝ × (Fin n → ℝ)) :
    dkLoop svd t q (f + 1) st =
      if |dkCur svd t q st.2 - st.1| < 1/1000 then
        Except.ok (st.1, dkRot svd t q st.2, dkTcom t st.2, dkQcom q st.2)
      else dkLoop svd t q f (dkStep svd t q st) := rfl

/-- C10: the previous-RMSD sentinel is initialised to the finite value
1000.0, so whenever the first iteration's reported RMSD lies within 0.001 of
1000, the convergence check fires immediately and `dynamic_kabsch` returns
the sentinel 1000 itself (not a computed RMSD) together with the first
iteration's rotation and centroids. -/
theorem C10_sentinel_first_iteration {n : ℕ} (svd : Svd) (t q : Fin n → V3)
    (h : |dkCur svd t q (fun _ => 1) - 1000| < 1/1000) :
    dynamicKabsch svd t q =
      Except.ok (1000, dkRot svd t q (fun _ => 1),
        dkTcom t (fun _ => 1), dkQcom q (fun _ => 1)) := by
  rw [dynamicKabsch, show (100 : ℕ) = 99 + 1 from rfl, dkLoop_succ]
  rw [if_pos h]

/-- Target of the C10 witness: two coincident points at the origin. -/
def w10T : Fin 2 → V3 := ![![0, 0, 0], ![0, 0, 0]]

/-- Query of the C10 witness: two points at distance 1000 from the origin. -/
def w10Q : Fin 2 → V3 := ![![-1000, 0, 0], ![1000, 0, 0]]

/-- The target centroid of the first C10-witness iteration. -/
lemma w10_tcom : dkTcom w10T (fun _ => 1) = fun _ => 0 := by
  funext j
  rw [dkTcom, avgW]
  fin_cases j <;>
    norm_num [Fin.sum_univ_two, w10T, vec3_zero, vec3_one, vec3_two]

/-- The query centroid of the first C10-witness iteration. -/
lemma w10_qcom : dkQcom w10Q (fun _ => 1) = fun _ => 0 := by
  funext j
  rw [dkQcom, avgW]
  fin_cases j <;>
    norm_num [Fin.sum_univ_two, w10Q, vec3_zero, vec3_one, vec3_two]

/-- The centred target of the first C10-witness iteration is zero. -/
lemma w10_tcen : dkTcen w10T (fun _ => 1) = fun _ _ => 0 := by
  funext i j
  rw [dkTcen, w10_tcom]
  fin_cases i <;> fin_cases j <;>
    norm_num [w10T, vec3_zero, vec3_one, vec3_two]

/-- The centred query of the first C10-witness iteration is the query. -/
lemma w10_qcen : dkQcen w10Q (fun _ => 1) = w10Q := by
  funext i j
  rw [dkQcen, w10_qcom]
  norm_num

/-- The rotation of the first C10-witness iteration is the identity. -/
lemma w10_rot : dkRot idSvd w10T w10Q (fun _ => 1) = 1 := by
  rw [dkRot, w10_tcen, w10_qcen]
  have hc : covW (fun _ => (1:ℝ)) (fun _ _ => (0:ℝ)) w10Q = (0 : Mat3) := by
    ext j k
    simp [covW, Fin.sum_univ_two]
  simp only [kabsch, if_true, hc]
  have hfix : reflFix (0 : Mat3) = 1 := by
    rw [reflFix, if_neg]
    rw [Matrix.det_zero ⟨0⟩]
    norm_num
  rw [hfix, idSvd]
  simp [Matrix.transpose_one]

/-- The residuals of the first C10-witness iteration equal the query. -/
lemma w10_diff : dkDiff idSvd w10T w10Q (fun _ => 1) = w10Q := by
  funext i j
  rw [dkDiff, w10_rot, w10_qcen, w10_tcen]
  rw [Matrix.vecMul_one]
  norm_num

/-- The reported RMSD of the first C10-witness iteration is exactly 1000. -/
lemma w10_cur : dkCur idSvd w10T w10Q (fun _ => 1) = 1000 := by
  rw [dkCur, w10_diff, rmsd]
  have hraw : rmsdRaw w10Q none (some fun _ => 1) = 1000 := by
    rw [rmsdRaw]
    have hv : (avgWs (fun _ => (1:ℝ)) fun i : Fin 2 => ∑ j, w10Q i j ^ 2)
        = 1000000 := by
      rw [avgWs]
      norm_num [Fin.sum_univ_two, Fin.sum_univ_three, w10Q,
        vec3_zero, vec3_one, vec3_two]
    rw [hv]
    rw [show (1000000 : ℝ) = 1000 ^ 2 by norm_num, Real.sqrt_sq (by norm_num)]
  rw [hraw, if_pos (by norm_num)]

/-- Witness for C10: with a constant SVD backend, a target of two coincident
origin points against a query at distance 1000 yields a first-iteration RMSD
of exactly 1000, within 0.001 of the sentinel, so the function returns the
sentinel 1000 with the first iteration's rotation and centroids. -/
theorem C10_sentinel_first_iteration_witness :
    dynamicKabsch idSvd w10T w10Q =
      Except.ok (1000, dkRot idSvd w10T w10Q (fun _ => 1),
        dkTcom w10T (fun _ => 1), dkQcom w10Q (fun _ => 1)) :=
  C10_sentinel_first_iteration idSvd w10T w10Q (by rw [w10_cur]; norm_num)

/-- Loop invariant for `dkLoop`: any successful result consists of the
triggering iteration's rotation and centroids (all computed from the same
weight vector `w`), together with a previous value that differs from that
iteration's reported RMSD by less than 0.001 and is either the initial
sentinel or the reported RMSD of an earlier iteration. -/
lemma dkLoop_ok_inv {n : ℕ} (svd : Svd) (t q : Fin n → V3) :
    ∀ (f : ℕ) (st : ℝ × (Fin n → ℝ)) (res : ℝ × Mat3 × V3 × V3),
      dkLoop svd t q f st = Except.ok res →
      (st.1 = 1000 ∨ ∃ wp, st.1 = dkCur svd t q wp) →
      ∃ w, res.2.1 = dkRot svd t q w ∧ res.2.2.1 = dkTcom t w ∧
        res.2.2.2 = dkQcom q w ∧ |dkCur svd t q w - res.1| < 1/1000 ∧
        (res.1 = 1000 ∨ ∃ wp, res.1 = dkCur svd t q wp) := by
  intro f
  induction f with
  | zero => intro st res h _; exact Except.noConfusion h
  | succ f ih =>
    intro st res h hinv
    rw [dkLoop_succ] at h
    by_cases hc : |dkCur svd t q st.2 - st.1| < 1/1000
    · rw [if_pos hc] at h
      have hres : (st.1, dkRot svd t q st.2, dkTcom t st.2, dkQcom q st.2) = res :=
        Except.ok.inj h
      refine ⟨st.2, ?_, ?_, ?_, ?_, ?_⟩
      · rw [← hres]
      · rw [← hres]
      · rw [← hres]
      · rw [← hres]; exact hc
      · rw [← hres]; exact hinv
    · rw [if_neg hc] at h
      exact ih (dkStep svd t q st) res h (Or.inr ⟨st.2, rfl⟩)

/-- C1 (amended): whenever `dynamic_kabsch` converges, the returned RMSD is
the previous iteration's reported RMSD (or the 1000 sentinel when the first
iteration triggers), while the returned rotation, target centroid and query
centroid are the ones computed in the iteration that triggered convergence —
not the previous iteration's, contrary to the claim as stated (see
`C1_counterexample`). -/
theorem C1_convergence_components {n : ℕ} (svd : Svd) (t q : Fin n → V3)
    (res : ℝ × Mat3 × V3 × V3)
    (h : dynamicKabsch svd t q = Except.ok res) :
    ∃ w, res.2.1 = dkRot svd t q w ∧ res.2.2.1 = dkTcom t w ∧
      res.2.2.2 = dkQcom q w ∧ |dkCur svd t q w - res.1| < 1/1000 ∧
      (res.1 = 1000 ∨ ∃ wp, res.1 = dkCur svd t q wp) :=
  dkLoop_ok_inv svd t q 100 (1000, fun _ => 1) res h (Or.inl rfl)

/-- Target backbone of the C1 scenarios: three collinear points on the
x-axis. -/
def dxT : Fin 3 → V3 := ![![0, 0, 0], ![1, 0, 0], ![2, 0, 0]]

/-- Query of the C1 counterexample: the target with its last point nudged by
1/2000 along x. -/
def dxQ : Fin 3 → V3 := ![![0, 0, 0], ![1, 0, 0], ![2 + 1/2000, 0, 0]]

/-- The query and target centroid helpers agree definitionally. -/
lemma dkQcom_eq_dkTcom {n : ℕ} (p : Fin n → V3) (w : Fin n → ℝ) :
    dkQcom p w = dkTcom p w := rfl

/-- The query and target centring helpers agree definitionally. -/
lemma dkQcen_eq_dkTcen {n : ℕ} (p : Fin n → V3) (w : Fin n → ℝ) :
    dkQcen p w = dkTcen p w := rfl

/-- First-iteration target centroid of the C1 scenarios. -/
lemma dx_tcom0 : dkTcom dxT (fun _ => 1) = ![1, 0, 0] := by
  funext j
  rw [dkTcom, avgW]
  fin_cases j <;>
    norm_num [Fin.sum_univ_three, dxT, vec3_zero, vec3_one, vec3_two]

/-- First-iteration query centroid of the C1 counterexample. -/
lemma dx_qcom0 : dkQcom dxQ (fun _ => 1) = ![6001/6000, 0, 0] := by
  funext j
  rw [dkQcom, avgW]
  fin_cases j <;>
    norm_num [Fin.sum_univ_three, dxQ, vec3_zero, vec3_one, vec3_two]

/-- First-iteration centred target of the C1 scenarios. -/
lemma dx_tcen0 : dkTcen dxT (fun _ => 1)
    = ![![-1, 0, 0], ![0, 0, 0], ![1, 0, 0]] := by
  funext i j
  rw [dkTcen, dx_tcom0]
  fin_cases i <;> fin_cases j <;>
    norm_num [dxT, vec3_zero, vec3_one, vec3_two]

/-- First-iteration centred query of the C1 counterexample. -/
lemma dx_qcen0 : dkQcen dxQ (fun _ => 1)
    = ![![-(6001/6000), 0, 0], ![-(1/6000), 0, 0], ![3001/3000, 0, 0]] := by
  funext i j
  rw [dkQcen, dx_qcom0]
  fin_cases i <;> fin_cases j <;>
    norm_num [dxQ, vec3_zero, vec3_one, vec3_two]

/-- First-iteration covariance of the C1 counterexample. -/
lemma dx_cov0 : covW (fun _ => 1)
    (![![-1, 0, 0], ![0, 0, 0], ![1, 0, 0]] : Fin 3 → V3)
    (![![-(6001/6000), 0, 0], ![-(1/6000), 0, 0], ![3001/3000, 0, 0]] : Fin 3 → V3)
    = !![4001/2000, 0, 0; 0, 0, 0; 0, 0, 0] := by
  ext j k
  fin_cases j <;> fin_cases k <;>
    norm_num [covW, Fin.sum_univ_three, vec3_zero, vec3_one, vec3_two,
      Matrix.cons_val_zero, Matrix.cons_val_one, Matrix.head_cons,
      Matrix.vecHead, Matrix.vecTail]

/-- First-iteration rotation of the C1 counterexample is the identity. -/
lemma dx_rot0 : dkRot idSvd dxT dxQ (fun _ => 1) = 1 := by
  rw [dkRot, dkQcen_eq_dkTcen]
  rw [show dkTcen dxQ (fun _ => 1)
      = ![![-(6001/6000), 0, 0], ![-(1/6000), 0, 0], ![3001/3000, 0, 0]] from
    (dkQcen_eq_dkTcen dxQ (fun _ => 1)) ▸ dx_qcen0]
  rw [dx_tcen0]
  simp only [kabsch, if_true, dx_cov0]
  have hfix : reflFix (!![4001/2000, 0, 0; 0, 0, 0; 0, 0, 0] : Mat3) = 1 := by
    rw [reflFix, if_neg]
    rw [Matrix.det_fin_three]
    norm_num [Matrix.cons_val_zero, Matrix.cons_val_one, Matrix.head_cons,
      Matrix.vecHead, Matrix.vecTail]
  rw [hfix, idSvd]
  simp [Matrix.transpose_one]

/-- First-iteration residuals of the C1 counterexample. -/
lemma dx_diff0 : dkDiff idSvd dxT dxQ (fun _ => 1)
    = ![![-(1/6000), 0, 0], ![-(1/6000), 0, 0], ![1/3000, 0, 0]] := by
  funext i j
  rw [dkDiff, dx_rot0, Matrix.vecMul_one, dkQcen_eq_dkTcen]
  rw [show dkTcen dxQ (fun _ => 1)
      = ![![-(6001/6000), 0, 0], ![-(1/6000), 0, 0], ![3001/3000, 0, 0]] from
    (dkQcen_eq_dkTcen dxQ (fun _ => 1)) ▸ dx_qcen0]
  rw [dx_tcen0]
  fin_cases i <;> fin_cases j <;>
    norm_num [vec3_zero, vec3_one, vec3_two]

/-- First-iteration reported RMSD of the C1 counterexample: the raw value is
below 0.001, so the thresholding in `rmsd` reports 0. -/
lemma dx_cur0 : dkCur idSvd dxT dxQ (fun _ => 1) = 0 := by
  rw [dkCur, dx_diff0, rmsd]
  have hv : (avgWs (fun _ => (1:ℝ)) fun i : Fin 3 =>
      ∑ j, (![![-(1/6000), 0, 0], ![-(1/6000), 0, 0], ![1/3000, 0, 0]] :
        Fin 3 → V3) i j ^ 2) = 1/18000000 := by
    rw [avgWs]
    norm_num [Fin.sum_univ_three, vec3_zero, vec3_one, vec3_two]
  rw [if_neg]
  rw [rmsdRaw]
  rw [hv]
  intro hcontra
  have hle : Real.sqrt (1/18000000) ≤ 1/1000 := by
    have h1 : Real.sqrt (1/18000000) ≤ Real.sqrt (1/1000000) :=
      Real.sqrt_le_sqrt (by norm_num)
    have h2 : Real.sqrt (1/1000000) = 1/1000 := by
      rw [show (1/1000000 : ℝ) = (1/1000)^2 by norm_num, Real.sqrt_sq (by norm_num)]
    linarith
  linarith

/-- The reweighting factor of the two unperturbed points of the C1
counterexample after the first iteration. -/
def dxB : ℝ := Real.exp (-(1/72000000))

/-- The reweighting factor of the nudged point of the C1 counterexample
after the first iteration. -/
def dxC : ℝ := Real.exp (-(1/18000000))

/-- The weight vector entering the second iteration of the C1
counterexample. -/
def dxW1 : Fin 3 → ℝ := ![dxB, dxB, dxC]

/-- First-iteration reweighting of the C1 counterexample. -/
lemma dx_nextw0 : dkNextW idSvd dxT dxQ (fun _ => 1) = dxW1 := by
  funext i
  rw [dkNextW, dx_diff0, dx_cur0]
  rw [show max (0:ℝ) 2 = 2 from max_eq_right (by norm_num)]
  fin_cases i
  · rw [show (⟨0, by omega⟩ : Fin 3) = (0 : Fin 3) from rfl]
    rw [show dxW1 0 = dxB from rfl, dxB]
    congr 1
    norm_num [Fin.sum_univ_three, vec3_zero, vec3_one, vec3_two]
  · rw [show (⟨1, by omega⟩ : Fin 3) = (1 : Fin 3) from rfl]
    rw [show dxW1 1 = dxB from rfl, dxB]
    congr 1
    norm_num [Fin.sum_univ_three, vec3_zero, vec3_one, vec3_two]
  · rw [show (⟨2, by omega⟩ : Fin 3) = (2 : Fin 3) from rfl]
    rw [show dxW1 2 = dxC from rfl, dxC]
    congr 1
    norm_num [Fin.sum_univ_three, vec3_zero, vec3_one, vec3_two]

/-- Positivity of the first reweighting factor. -/
lemma dxB_pos : 0 < dxB := Real.exp_pos _

/-- Positivity of the second reweighting factor. -/
lemma dxC_pos : 0 < dxC := Real.exp_pos _

/-- The nudged point is strictly downweighted relative to the others. -/
lemma dxC_lt_dxB : dxC < dxB := by
  rw [dxB, dxC]
  exact Real.exp_lt_exp.mpr (by norm_num)

/-- The sum of the second-iteration weights. -/
lemma dx_sum1 : (∑ i, dxW1 i) = dxB + dxB + dxC := by
  rw [Fin.sum_univ_three]
  norm_num [dxW1, vec3_zero, vec3_one, vec3_two]

/-- Positivity of the second-iteration weight sum. -/
lemma dx_sum1_pos : 0 < dxB + dxB + dxC := by
  have h1 := dxB_pos
  have h2 := dxC_pos
  linarith

/-- Second-iteration target centroid of the C1 counterexample. -/
lemma dx_tcom1 : dkTcom dxT dxW1
    = ![(dxB + 2*dxC)/(dxB + dxB + dxC), 0, 0] := by
  funext j
  rw [dkTcom, avgW, dx_sum1]
  fin_cases j
  · rw [Fin.sum_univ_three]
    norm_num [dxT, dxW1, vec3_zero, vec3_one, vec3_two]
    try congr 1
    try ring
  · rw [Fin.sum_univ_three]
    norm_num [dxT, dxW1, Matrix.vecHead, Matrix.vecTail,
      vec3_zero, vec3_one, vec3_two]
  · rw [Fin.sum_univ_three]
    norm_num [dxT, dxW1, Matrix.vecHead, Matrix.vecTail,
      vec3_zero, vec3_one, vec3_two]

/-- Second-iteration query centroid of the C1 counterexample. -/
lemma dx_qcom1 : dkQcom dxQ dxW1
    = ![(dxB + dxC*(4001/2000))/(dxB + dxB + dxC), 0, 0] := by
  funext j
  rw [dkQcom, avgW, dx_sum1]
  fin_cases j
  · rw [Fin.sum_univ_three]
    norm_num [dxQ, dxW1, vec3_zero, vec3_one, vec3_two]
    try congr 1
    try ring
  · rw [Fin.sum_univ_three]
    norm_num [dxQ, dxW1, Matrix.vecHead, Matrix.vecTail,
      vec3_zero, vec3_one, vec3_two]
  · rw [Fin.sum_univ_three]
    norm_num [dxQ, dxW1, Matrix.vecHead, Matrix.vecTail,
      vec3_zero, vec3_one, vec3_two]

/-- The y and z columns of the second-iteration centred target vanish. -/
lemma dx_tcen1_ne0 : ∀ (i k : Fin 3), k ≠ 0 → dkTcen dxT dxW1 i k = 0 := by
  intro i k hk
  rw [dkTcen, dx_tcom1]
  fin_cases k
  · exact absurd rfl hk
  · fin_cases i <;> norm_num [dxT, vec3_zero, vec3_one, vec3_two]
  · fin_cases i <;> norm_num [dxT, vec3_zero, vec3_one, vec3_two]

/-- The y and z columns of the second-iteration centred query vanish. -/
lemma dx_qcen1_ne0 : ∀ (i k : Fin 3), k ≠ 0 → dkQcen dxQ dxW1 i k = 0 := by
  intro i k hk
  rw [dkQcen, dx_qcom1]
  fin_cases k
  · exact absurd rfl hk
  · fin_cases i <;> norm_num [dxQ, vec3_zero, vec3_one, vec3_two]
  · fin_cases i <;> norm_num [dxQ, vec3_zero, vec3_one, vec3_two]

/-- The second-iteration covariance of the C1 counterexample has zero
determinant: its only possibly nonzero entry is at (0, 0). -/
lemma dx_cov1_det :
    (covW dxW1 (dkTcen dxT dxW1) (dkQcen dxQ dxW1)).det = 0 := by
  have hq : ∀ k : Fin 3, k ≠ 0 →
      ∀ j, covW dxW1 (dkTcen dxT dxW1) (dkQcen dxQ dxW1) j k = 0 := by
    intro k hk j
    simp only [covW, Matrix.of_apply]
    apply Finset.sum_eq_zero
    intro i _
    rw [dx_qcen1_ne0 i k hk]
    ring
  have ht : ∀ j : Fin 3, j ≠ 0 →
      ∀ k, covW dxW1 (dkTcen dxT dxW1) (dkQcen dxQ dxW1) j k = 0 := by
    intro j hj k
    simp only [covW, Matrix.of_apply]
    apply Finset.sum_eq_zero
    intro i _
    rw [dx_tcen1_ne0 i j hj]
    ring
  rw [Matrix.det_fin_three]
  rw [hq 1 (by decide) 0, hq 2 (by decide) 0, ht 1 (by decide) 0, ht 2 (by decide) 0,
    ht 1 (by decide) 1, ht 1 (by decide) 2, ht 2 (by decide) 1, ht 2 (by decide) 2]
  ring

/-- The second-iteration rotation of the C1 counterexample is the identity. -/
lemma dx_rot1 : dkRot idSvd dxT dxQ dxW1 = 1 := by
  rw [dkRot]
  simp only [kabsch, if_true]
  have hfix : reflFix (covW dxW1 (dkTcen dxT dxW1) (dkQcen dxQ dxW1)) = 1 := by
    rw [reflFix, if_neg]
    rw [dx_cov1_det]
    norm_num
  rw [hfix, idSvd]
  simp [Matrix.transpose_one]

/-- X-column of the second-iteration residuals of the C1 counterexample:
the pointwise difference minus the centroid mismatch. -/
lemma dx_diff1_col : ∀ i : Fin 3, dkDiff idSvd dxT dxQ dxW1 i 0
    = (dxQ i 0 - dxT i 0) - (dkQcom dxQ dxW1 0 - dkTcom dxT dxW1 0) := by
  intro i
  rw [dkDiff, dx_rot1, Matrix.vecMul_one]
  simp only [dkQcen, dkTcen]
  ring

/-- Y and z columns of the second-iteration residuals vanish. -/
lemma dx_diff1_ne0 : ∀ (i k : Fin 3), k ≠ 0 → dkDiff idSvd dxT dxQ dxW1 i k = 0 := by
  intro i k hk
  rw [dkDiff, dx_rot1, Matrix.vecMul_one]
  rw [dx_qcen1_ne0 i k hk, dx_tcen1_ne0 i k hk]
  ring

/-- The centroid mismatch of the second iteration in closed form. -/
lemma dx_m_value : dkQcom dxQ dxW1 0 - dkTcom dxT dxW1 0
    = (dxC * (1/2000))/(dxB + dxB + dxC) := by
  rw [dx_qcom1, dx_tcom1, vec3_zero, vec3_zero, div_sub_div_same]
  congr 1
  ring

/-- The centroid mismatch is non-negative. -/
lemma dx_m_nonneg : 0 ≤ (dxC * (1/2000))/(dxB + dxB + dxC) :=
  div_nonneg (mul_nonneg (le_of_lt dxC_pos) (by norm_num)) (le_of_lt dx_sum1_pos)

/-- The centroid mismatch is at most the nudge 1/2000. -/
lemma dx_m_le : (dxC * (1/2000))/(dxB + dxB + dxC) ≤ 1/2000 := by
  rw [div_le_iff dx_sum1_pos]
  have h1 := dxB_pos
  have h2 := dxC_pos
  nlinarith

/-- The second-iteration reported RMSD of the C1 counterexample is 0: every
residual is at most the 1/2000 nudge, so the raw weighted RMS stays at or
below 1/2000 and the thresholding reports 0. -/
lemma dx_cur1 : dkCur idSvd dxT dxQ dxW1 = 0 := by
  have hb := dxB_pos
  have hc := dxC_pos
  have hm0 := dx_m_nonneg
  have hm1 := dx_m_le
  have hS := dx_sum1_pos
  have hvals : ∀ i : Fin 3, (∑ j, dkDiff idSvd dxT dxQ dxW1 i j ^ 2)
      ≤ 1/4000000 := by
    intro i
    rw [Fin.sum_univ_three, dx_diff1_ne0 i 1 (by decide), dx_diff1_ne0 i 2 (by decide),
      dx_diff1_col i, dx_m_value]
    fin_cases i
    · norm_num [dxQ, dxT, vec3_zero, vec3_one, vec3_two]
      nlinarith
    · norm_num [dxQ, dxT, vec3_zero, vec3_one, vec3_two]
      nlinarith
    · norm_num [dxQ, dxT, vec3_zero, vec3_one, vec3_two]
      nlinarith
  have hw0 : ∀ i : Fin 3, 0 ≤ dxW1 i := by
    intro i
    fin_cases i <;>
      simp [dxW1, vec3_zero, vec3_one, vec3_two, le_of_lt dxB_pos, le_of_lt dxC_pos]
  have hsump : 0 < ∑ i, dxW1 i := by
    rw [dx_sum1]
    exact dx_sum1_pos
  have havg : avgWs dxW1 (fun i => ∑ j, dkDiff idSvd dxT dxQ dxW1 i j ^ 2)
      ≤ 1/4000000 := by
    rw [avgWs, div_le_iff hsump]
    calc (∑ i, dxW1 i * ∑ j, dkDiff idSvd dxT dxQ dxW1 i j ^ 2)
        ≤ ∑ i, dxW1 i * (1/4000000) :=
          Finset.sum_le_sum fun i _ =>
            mul_le_mul_of_nonneg_left (hvals i) (hw0 i)
      _ = (∑ i, dxW1 i) * (1/4000000) := by rw [← Finset.sum_mul]
      _ = 1/4000000 * ∑ i, dxW1 i := by ring
  rw [dkCur, rmsd, if_neg]
  rw [rmsdRaw]
  intro hcontra
  have hle : Real.sqrt (avgWs dxW1
      (fun i => ∑ j, dkDiff idSvd dxT dxQ dxW1 i j ^ 2)) ≤ 1/2000 := by
    have h1 := Real.sqrt_le_sqrt havg
    have h2 : Real.sqrt (1/4000000) = 1/2000 := by
      rw [show (1/4000000 : ℝ) = (1/2000)^2 by norm_num, Real.sqrt_sq (by norm_num)]
    linarith
  linarith

/-- The complete run of the C1 counterexample: the first iteration does not
converge (reported 0 against the 1000 sentinel), the reweighting produces
`dxW1`, and the second iteration converges, returning the previous reported
RMSD 0 together with the second iteration's rotation and centroids. -/
lemma dx_run : dynamicKabsch idSvd dxT dxQ
    = Except.ok (0, dkRot idSvd dxT dxQ dxW1,
        dkTcom dxT dxW1, dkQcom dxQ dxW1) := by
  rw [dynamicKabsch, show (100 : ℕ) = 99 + 1 from rfl, dkLoop_succ]
  rw [if_neg (by rw [dx_cur0]; norm_num)]
  have hstep : dkStep idSvd dxT dxQ (1000, fun _ => 1) = (0, dxW1) := by
    rw [dkStep]
    rw [show (1000, fun _ => (1:ℝ)).2 = (fun _ => (1:ℝ)) from rfl]
    rw [dx_cur0, dx_nextw0]
  rw [hstep, show (99 : ℕ) = 98 + 1 from rfl, dkLoop_succ]
  rw [if_pos (by rw [show ((0:ℝ), dxW1).2 = dxW1 from rfl, dx_cur1]; norm_num)]

/-- Counterexample to C1 as stated: on the nudged collinear backbone the
first iteration does not trigger convergence, the second does, and the
returned target centroid differs from the previous (first) iteration's
target centroid — the returned rotation and centroids come from the
triggering iteration, not the one before it. -/
theorem C1_counterexample :
    ¬ |dkCur idSvd dxT dxQ (fun _ => 1) - 1000| < 1/1000 ∧
    (dynamicKabsch idSvd dxT dxQ).toOption ≠ none ∧
    (dynamicKabsch idSvd dxT dxQ).toOption.map (fun r => r.2.2.1 0)
      ≠ some (dkTcom dxT (fun _ => 1) 0) := by
  refine ⟨by rw [dx_cur0]; norm_num, ?_, ?_⟩
  · rw [dx_run]
    simp [Except.toOption]
  · rw [dx_run, dx_tcom0]
    simp only [Except.toOption, Option.map_some]
    intro h
    have h2 : dkTcom dxT dxW1 0 = 1 := by
      have := Option.some.inj h
      simpa [vec3_zero] using this
    rw [dx_tcom1, vec3_zero] at h2
    rw [div_eq_one_iff_eq (ne_of_gt dx_sum1_pos)] at h2
    have hlt := dxC_lt_dxB
    linarith

/-- Covariance of the self-alignment scenario with unit weights. -/
lemma eq_cov0 : covW (fun _ => 1)
    (![![-1, 0, 0], ![0, 0, 0], ![1, 0, 0]] : Fin 3 → V3)
    (![![-1, 0, 0], ![0, 0, 0], ![1, 0, 0]] : Fin 3 → V3)
    = !![2, 0, 0; 0, 0, 0; 0, 0, 0] := by
  ext j k
  fin_cases j <;> fin_cases k <;>
    norm_num [covW, Fin.sum_univ_three, vec3_zero, vec3_one, vec3_two,
      Matrix.cons_val_zero, Matrix.cons_val_one, Matrix.head_cons,
      Matrix.vecHead, Matrix.vecTail]

/-- Rotation of the first self-alignment iteration is the identity. -/
lemma eq_rot0 : dkRot idSvd dxT dxT (fun _ => 1) = 1 := by
  rw [dkRot, dkQcen_eq_dkTcen, dx_tcen0]
  simp only [kabsch, if_true, eq_cov0]
  have hfix : reflFix (!![2, 0, 0; 0, 0, 0; 0, 0, 0] : Mat3) = 1 := by
    rw [reflFix, if_neg]
    rw [Matrix.det_fin_three]
    norm_num [Matrix.cons_val_zero, Matrix.cons_val_one, Matrix.head_cons,
      Matrix.vecHead, Matrix.vecTail]
  rw [hfix, idSvd]
  simp [Matrix.transpose_one]

/-- Residuals of the first self-alignment iteration vanish. -/
lemma eq_diff0 : dkDiff idSvd dxT dxT (fun _ => 1) = fun _ _ => 0 := by
  funext i j
  rw [dkDiff, eq_rot0, Matrix.vecMul_one, dkQcen_eq_dkTcen]
  exact sub_self _

/-- Reported RMSD of the first self-alignment iteration is 0. -/
lemma eq_cur0 : dkCur idSvd dxT dxT (fun _ => 1) = 0 := by
  rw [dkCur, eq_diff0, rmsd, if_neg]
  rw [rmsdRaw]
  have hv : (avgWs (fun _ => (1:ℝ)) fun i : Fin 3 =>
      ∑ j, (fun (_ : Fin 3) (_ : Fin 3) => (0:ℝ)) i j ^ 2) = 0 := by
    rw [avgWs]
    norm_num [Fin.sum_univ_three]
  rw [hv, Real.sqrt_zero]
  norm_num

/-- Reweighting of the first self-alignment iteration keeps unit weights. -/
lemma eq_nextw0 : dkNextW idSvd dxT dxT (fun _ => 1) = fun _ => 1 := by
  funext i
  rw [dkNextW, eq_diff0, eq_cur0]
  rw [show max (0:ℝ) 2 = 2 from max_eq_right (by norm_num)]
  norm_num [Fin.sum_univ_three, Real.exp_zero]

/-- The complete self-alignment run: the first iteration reports 0 against
the 1000 sentinel and does not converge; the second reports 0 against 0 and
converges. -/
lemma eq_run : dynamicKabsch idSvd dxT dxT
    = Except.ok (0, dkRot idSvd dxT dxT (fun _ => 1),
        dkTcom dxT (fun _ => 1), dkQcom dxT (fun _ => 1)) := by
  rw [dynamicKabsch, show (100 : ℕ) = 99 + 1 from rfl, dkLoop_succ]
  rw [if_neg (show ¬ |dkCur idSvd dxT dxT (fun _ => 1) - (1000:ℝ)| < 1/1000 by
    rw [eq_cur0]; norm_num)]
  have hstep : dkStep idSvd dxT dxT (1000, fun _ => 1) = (0, fun _ => 1) := by
    have h1 : dkStep idSvd dxT dxT (1000, fun _ => 1)
        = (dkCur idSvd dxT dxT (fun _ => 1), dkNextW idSvd dxT dxT (fun _ => 1)) := rfl
    rw [h1, eq_cur0, eq_nextw0]
  rw [hstep, show (99 : ℕ) = 98 + 1 from rfl, dkLoop_succ]
  rw [if_pos (show |dkCur idSvd dxT dxT (fun _ => 1) - (0:ℝ)| < 1/1000 by
    rw [eq_cur0]; norm_num)]

/-- Witness for C1 (amended): the self-alignment run converges and the
amended theorem exhibits the triggering iteration's weights behind the
returned rotation and centroids, with the returned RMSD equal to an earlier
iteration's reported RMSD. -/
theorem C1_convergence_components_witness :
    ∃ w : Fin 3 → ℝ,
      dkRot idSvd dxT dxT (fun _ => 1) = dkRot idSvd dxT dxT w ∧
      dkTcom dxT (fun _ => 1) = dkTcom dxT w ∧
      dkQcom dxT (fun _ => 1) = dkQcom dxT w ∧
      |dkCur idSvd dxT dxT w - 0| < 1/1000 ∧
      ((0:ℝ) = 1000 ∨ ∃ wp : Fin 3 → ℝ, (0:ℝ) = dkCur idSvd dxT dxT wp) :=
  C1_convergence_components idSvd dxT dxT
    (0, dkRot idSvd dxT dxT (fun _ => 1), dkTcom dxT (fun _ => 1),
      dkQcom dxT (fun _ => 1)) eq_run

/-- If the convergence check fails at every state the loop visits, the loop
consumes all its fuel and raises. -/
lemma dkLoop_error_of_no_check {n : ℕ} (svd : Svd) (t q : Fin n → V3) :
    ∀ (f : ℕ) (st : ℝ × (Fin n → ℝ)),
      (∀ k, k < f →
        ¬ |dkCur svd t q ((dkStep svd t q)^[k] st).2
            - ((dkStep svd t q)^[k] st).1| < 1/1000) →
      dkLoop svd t q f st = Except.error dkMsg := by
  intro f
  induction f with
  | zero => intro st _; rfl
  | succ f ih =>
    intro st h
    rw [dkLoop_succ]
    rw [if_neg (by simpa using h 0 (Nat.succ_pos f))]
    exact ih (dkStep svd t q st) (fun k hk => by
      have hx := h (k + 1) (Nat.succ_lt_succ hk)
      rwa [Function.iterate_succ_apply] at hx)

/-- C7: whenever no iteration of `dynamic_kabsch` satisfies the convergence
check `|_current - _rmsd| < 0.001`, the loop performs its full budget of 100
iterations and then fails with the exception reporting the exhausted budget;
it never returns an approximate result. -/
theorem C7_no_convergence_error {n : ℕ} (svd : Svd) (t q : Fin n → V3)
    (h : ∀ k, k < 100 →
      ¬ |dkCur svd t q ((dkStep svd t q)^[k] (1000, fun _ => 1)).2
          - ((dkStep svd t q)^[k] (1000, fun _ => 1)).1| < 1/1000) :
    dynamicKabsch svd t q = Except.error dkMsg :=
  dkLoop_error_of_no_check svd t q 100 (1000, fun _ => 1) h

/-- A 90-degree rotation around z used by the adversarial SVD backend. -/
def rz90 : Mat3 := !![0, 1, 0; -1, 0, 0; 0, 0, 1]

/-- An adversarial deterministic SVD backend for the C7 witness: on matrices
whose (0,0) entry is at least 2 it returns a right factor whose transpose is
a 90-degree rotation; otherwise identity factors. -/
def badSvd : Svd := fun M =>
  if 2 ≤ M 0 0 then (1, fun _ => 0, rz90.transpose) else (1, fun _ => 0, 1)

/-- The period-2 weight vector of the C7 witness: `exp(-1)` on the outer
points, 1 on the middle one. -/
def bw : Fin 3 → ℝ := fun i => if i = 1 then 1 else Real.exp (-1)

/-- Odd-iteration rotation of the C7 witness: the backend's branch on the
covariance `diag(2,0,0)` yields the 90-degree rotation. -/
lemma bad_rot1 : dkRot badSvd dxT dxT (fun _ => 1) = rz90 := by
  rw [dkRot, dkQcen_eq_dkTcen, dx_tcen0]
  simp only [kabsch, if_true, eq_cov0]
  have hsvd : badSvd (!![2, 0, 0; 0, 0, 0; 0, 0, 0]) = (1, fun _ => 0, rz90.transpose) := by
    rw [badSvd, if_pos]
    norm_num [Matrix.cons_val_zero]
  have hfix : reflFix (!![2, 0, 0; 0, 0, 0; 0, 0, 0] : Mat3) = 1 := by
    rw [reflFix, if_neg]
    rw [Matrix.det_fin_three]
    norm_num [Matrix.cons_val_zero, Matrix.cons_val_one, Matrix.head_cons,
      Matrix.vecHead, Matrix.vecTail]
  rw [hsvd, hfix]
  simp [Matrix.transpose_transpose, Matrix.transpose_one]

/-- Odd-iteration residuals of the C7 witness. -/
lemma bad_diff1 : dkDiff badSvd dxT dxT (fun _ => 1)
    = ![![1, -1, 0], ![0, 0, 0], ![-1, 1, 0]] := by
  funext i j
  rw [dkDiff, bad_rot1, dkQcen_eq_dkTcen, dx_tcen0]
  fin_cases i <;> fin_cases j <;>
    norm_num [Matrix.vecMul, Matrix.dotProduct, Fin.sum_univ_three, rz90,
      vec3_zero, vec3_one, vec3_two, Matrix.cons_val_zero, Matrix.cons_val_one,
      Matrix.head_cons, Matrix.vecHead, Matrix.vecTail]

/-- The square root of 4/3 is at least 1. -/
lemma sqrt43_ge1 : (1:ℝ) ≤ Real.sqrt (4/3) := by
  rw [show (1:ℝ) = Real.sqrt 1 from Real.sqrt_one.symm]
  exact Real.sqrt_le_sqrt (by norm_num)

/-- The square root of 4/3 is at most 2. -/
lemma sqrt43_le2 : Real.sqrt (4/3) ≤ 2 := by
  have h1 : Real.sqrt (4/3) ≤ Real.sqrt 4 := Real.sqrt_le_sqrt (by norm_num)
  have h2 : Real.sqrt 4 = 2 := by
    rw [show (4:ℝ) = 2^2 by norm_num, Real.sqrt_sq (by norm_num)]
  linarith

/-- Odd-iteration reported RMSD of the C7 witness. -/
lemma bad_cur1 : dkCur badSvd dxT dxT (fun _ => 1) = Real.sqrt (4/3) := by
  rw [dkCur, bad_diff1, rmsd]
  have hv : (avgWs (fun _ => (1:ℝ)) fun i : Fin 3 =>
      ∑ j, (![![1, -1, 0], ![0, 0, 0], ![-1, 1, 0]] : Fin 3 → V3) i j ^ 2)
      = 4/3 := by
    rw [avgWs]
    norm_num [Fin.sum_univ_three, vec3_zero, vec3_one, vec3_two]
  rw [rmsdRaw]
  rw [hv]
  rw [if_pos (by linarith [sqrt43_ge1])]

/-- Odd-iteration reweighting of the C7 witness produces the period-2
weights. -/
lemma bad_nextw1 : dkNextW badSvd dxT dxT (fun _ => 1) = bw := by
  funext i
  rw [dkNextW, bad_diff1, bad_cur1]
  rw [max_eq_right sqrt43_le2]
  fin_cases i
  · simp only [bw, if_neg (by decide : ¬ ((0 : Fin 3) = 1))]
    congr 1
    norm_num [Fin.sum_univ_three, vec3_zero, vec3_one, vec3_two]
  · simp only [bw, if_pos (by decide : ((1 : Fin 3) = 1))]
    rw [show (1:ℝ) = Real.exp 0 from Real.exp_zero.symm]
    congr 1
    norm_num [Fin.sum_univ_three, vec3_zero, vec3_one, vec3_two]
  · simp only [bw, if_neg (by decide : ¬ ((2 : Fin 3) = 1))]
    congr 1
    norm_num [Fin.sum_univ_three, vec3_zero, vec3_one, vec3_two]

/-- Positivity of the outer period-2 weight. -/
lemma bwa_pos : 0 < Real.exp (-1) := Real.exp_pos _

/-- The outer period-2 weight is below 1. -/
lemma bwa_lt_one : Real.exp (-1) < 1 := by
  have h : Real.exp (-1) < Real.exp 0 := Real.exp_lt_exp.mpr (by norm_num)
  rwa [Real.exp_zero] at h

/-- First entry of the period-2 weights. -/
lemma bw0 : bw 0 = Real.exp (-1) := if_neg (by decide)

/-- Second entry of the period-2 weights. -/
lemma bw1 : bw 1 = 1 := if_pos rfl

/-- Third entry of the period-2 weights. -/
lemma bw2 : bw 2 = Real.exp (-1) := if_neg (by decide)

/-- Even-iteration target centroid of the C7 witness: the period-2 weights
are symmetric around the middle point, so the centroid stays at 1. -/
lemma bad_tcom2 : dkTcom dxT bw = ![1, 0, 0] := by
  have ha := bwa_pos
  have hden : Real.exp (-1) + 1 + Real.exp (-1) ≠ 0 := by linarith
  funext j
  rw [dkTcom, avgW]
  simp only [Fin.sum_univ_three]
  fin_cases j
  · norm_num [bw0, bw1, bw2, dxT, vec3_zero, vec3_one, vec3_two]
    rw [div_eq_one_iff_eq hden]
    ring
  · norm_num [bw0, bw1, bw2, dxT, Matrix.vecHead, Matrix.vecTail,
      vec3_zero, vec3_one, vec3_two]
  · norm_num [bw0, bw1, bw2, dxT, Matrix.vecHead, Matrix.vecTail,
      vec3_zero, vec3_one, vec3_two]

/-- Even-iteration centred target of the C7 witness. -/
lemma bad_tcen2 : dkTcen dxT bw = ![![-1, 0, 0], ![0, 0, 0], ![1, 0, 0]] := by
  funext i j
  rw [dkTcen, bad_tcom2]
  fin_cases i <;> fin_cases j <;>
    norm_num [dxT, vec3_zero, vec3_one, vec3_two]

/-- Even-iteration covariance of the C7 witness. -/
lemma bad_cov2 : covW bw
    (![![-1, 0, 0], ![0, 0, 0], ![1, 0, 0]] : Fin 3 → V3)
    (![![-1, 0, 0], ![0, 0, 0], ![1, 0, 0]] : Fin 3 → V3)
    = !![Real.exp (-1) + Real.exp (-1), 0, 0; 0, 0, 0; 0, 0, 0] := by
  ext j k
  fin_cases j <;> fin_cases k <;>
    (norm_num [covW, bw0, bw1, bw2, Fin.sum_univ_three, vec3_zero, vec3_one,
      vec3_two, Matrix.cons_val_zero, Matrix.cons_val_one, Matrix.head_cons,
      Matrix.vecHead, Matrix.vecTail]
     try ring)

/-- Even-iteration rotation of the C7 witness: the covariance entry is
`2 exp(-1) < 2`, so the backend takes the identity branch. -/
lemma bad_rot2 : dkRot badSvd dxT dxT bw = 1 := by
  rw [dkRot, dkQcen_eq_dkTcen, bad_tcen2]
  simp only [kabsch, if_true, bad_cov2]
  have hsvd : badSvd (!![Real.exp (-1) + Real.exp (-1), 0, 0; 0, 0, 0; 0, 0, 0])
      = (1, fun _ => 0, 1) := by
    rw [badSvd, if_neg]
    norm_num [Matrix.cons_val_zero]
    linarith [bwa_lt_one]
  have hfix : reflFix
      (!![Real.exp (-1) + Real.exp (-1), 0, 0; 0, 0, 0; 0, 0, 0] : Mat3) = 1 := by
    rw [reflFix, if_neg]
    rw [Matrix.det_fin_three]
    norm_num [Matrix.cons_val_zero, Matrix.cons_val_one, Matrix.head_cons,
      Matrix.vecHead, Matrix.vecTail]
  rw [hsvd, hfix]
  simp [Matrix.transpose_one]

/-- Even-iteration residuals of the C7 witness vanish. -/
lemma bad_diff2 : dkDiff badSvd dxT dxT bw = fun _ _ => 0 := by
  funext i j
  rw [dkDiff, bad_rot2, Matrix.vecMul_one, dkQcen_eq_dkTcen]
  exact sub_self _

/-- Even-iteration reported RMSD of the C7 witness is 0. -/
lemma bad_cur2 : dkCur badSvd dxT dxT bw = 0 := by
  rw [dkCur, bad_diff2, rmsd, if_neg]
  rw [rmsdRaw]
  have hv : (avgWs bw fun i : Fin 3 =>
      ∑ j, (fun (_ : Fin 3) (_ : Fin 3) => (0:ℝ)) i j ^ 2) = 0 := by
    rw [avgWs]
    norm_num [Fin.sum_univ_three]
  rw [hv, Real.sqrt_zero]
  norm_num

/-- Even-iteration reweighting of the C7 witness restores unit weights. -/
lemma bad_nextw2 : dkNextW badSvd dxT dxT bw = fun _ => 1 := by
  funext i
  rw [dkNextW, bad_diff2, bad_cur2]
  rw [show max (0:ℝ) 2 = 2 from max_eq_right (by norm_num)]
  norm_num [Fin.sum_univ_three, Real.exp_zero]

/-- One step from any unit-weight state of the C7 witness. -/
lemma bad_step_ones (p : ℝ) :
    dkStep badSvd dxT dxT (p, fun _ => 1) = (Real.sqrt (4/3), bw) := by
  have h1 : dkStep badSvd dxT dxT (p, fun _ => 1)
      = (dkCur badSvd dxT dxT (fun _ => 1), dkNextW badSvd dxT dxT (fun _ => 1)) := rfl
  rw [h1, bad_cur1, bad_nextw1]

/-- One step from any period-2-weight state of the C7 witness. -/
lemma bad_step_bw (p : ℝ) :
    dkStep badSvd dxT dxT (p, bw) = (0, fun _ => 1) := by
  have h1 : dkStep badSvd dxT dxT (p, bw)
      = (dkCur badSvd dxT dxT bw, dkNextW badSvd dxT dxT bw) := rfl
  rw [h1, bad_cur2, bad_nextw2]

/-- The iterates of the C7 witness oscillate with period 2 after the first
step. -/
lemma bad_iterate : ∀ k : ℕ,
    (dkStep badSvd dxT dxT)^[2*k+1] (1000, fun _ => 1) = (Real.sqrt (4/3), bw) ∧
    (dkStep badSvd dxT dxT)^[2*k+2] (1000, fun _ => 1) = (0, fun _ => 1) := by
  intro k
  induction k with
  | zero =>
    constructor
    · rw [show 2*0+1 = 1 from rfl, Function.iterate_one]
      exact bad_step_ones 1000
    · rw [show 2*0+2 = 1+1 from rfl, Function.iterate_succ_apply',
        Function.iterate_one, bad_step_ones 1000]
      exact bad_step_bw (Real.sqrt (4/3))
  | succ k ih =>
    constructor
    · rw [show 2*(k+1)+1 = (2*k+2)+1 by ring, Function.iterate_succ_apply', ih.2]
      exact bad_step_ones 0
    · rw [show 2*(k+1)+2 = ((2*k+2)+1)+1 by ring, Function.iterate_succ_apply',
        Function.iterate_succ_apply', ih.2, bad_step_ones 0]
      exact bad_step_bw (Real.sqrt (4/3))

/-- The convergence check fails at every iterate of the C7 witness. -/
lemma bad_check : ∀ k, k < 100 →
    ¬ |dkCur badSvd dxT dxT ((dkStep badSvd dxT dxT)^[k] (1000, fun _ => 1)).2
        - ((dkStep badSvd dxT dxT)^[k] (1000, fun _ => 1)).1| < 1/1000 := by
  have h1 := sqrt43_ge1
  have h2 := sqrt43_le2
  intro k _
  match k with
  | 0 =>
    rw [Function.iterate_zero_apply]
    rw [show ((1000:ℝ), fun _ => (1:ℝ)).2 = (fun _ => (1:ℝ)) from rfl,
      show ((1000:ℝ), fun _ => (1:ℝ)).1 = (1000:ℝ) from rfl, bad_cur1]
    intro hcontra
    have habs : 1000 - Real.sqrt (4/3) ≤ |Real.sqrt (4/3) - 1000| := by
      rw [abs_sub_comm]
      exact le_abs_self _
    linarith
  | Nat.succ k0 =>
    rcases Nat.even_or_odd k0 with he | ho
    · obtain ⟨m, hm⟩ := he
      rw [show Nat.succ k0 = 2*m+1 by omega, (bad_iterate m).1]
      rw [show ((Real.sqrt (4/3)), bw).2 = bw from rfl,
        show ((Real.sqrt (4/3)), bw).1 = Real.sqrt (4/3) from rfl, bad_cur2]
      intro hcontra
      have habs : Real.sqrt (4/3) ≤ |0 - Real.sqrt (4/3)| := by
        rw [zero_sub, abs_neg]
        exact le_abs_self _
      linarith
    · obtain ⟨m, hm⟩ := ho
      rw [show Nat.succ k0 = 2*m+2 by omega, (bad_iterate m).2]
      rw [show ((0:ℝ), fun _ => (1:ℝ)).2 = (fun _ => (1:ℝ)) from rfl,
        show ((0:ℝ), fun _ => (1:ℝ)).1 = (0:ℝ) from rfl, bad_cur1]
      intro hcontra
      have habs : Real.sqrt (4/3) ≤ |Real.sqrt (4/3) - 0| := by
        rw [sub_zero]
        exact le_abs_self _
      linarith

/-- Witness for C7: with the adversarial period-2 backend on the collinear
backbone, no iteration ever converges and `dynamic_kabsch` raises the
iteration-budget exception. -/
theorem C7_no_convergence_error_witness :
    dynamicKabsch badSvd dxT dxT = Except.error dkMsg :=
  C7_no_convergence_error badSvd dxT dxT bad_check
